import Mathlib

/-!
Shallow embedding of the `chesskimo` chess-engine core (`board.go`, `base/base.go`).

Conventions of the embedding:
* `Piece`, `Color`, `Square` and `Info` are all byte values, modelled as `Nat`
  (always `< 256`); Go's `uint8`/`int8` wrap-around arithmetic is modelled by
  explicit `% 256`.  A signed `int8` direction `d` is represented by its
  two's-complement byte `d % 256` (e.g. `-16` is `240`); adding a direction to
  a square is `(sq + dir) % 256`, which agrees with Go's
  `Square(int8(sq) + dir)`.
* The 128-entry `Squares` array is packed little-endian into a single `Nat`,
  one byte per square (`sqGet` / `sqSet`); the two 240-entry difference tables
  are packed the same way.
* Go `panic` sites are modelled by returning `none` (`Option`).
* Loops whose textual form in Go is unbounded (`for ;;`) but which terminate
  geometrically are given ample fuel; the fuel is never exhausted on boards
  whose pieces are on the playable half.
-/

namespace Chesskimo

/-- Use the kernel-accelerated `Nat.beq` for `==` on `Nat` (with Mathlib
imported, `==` would otherwise elaborate to a structural `Nat.decEq`
chain, which cripples kernel evaluation of the engine). -/
instance (priority := 2000) : BEq Nat := ⟨Nat.beq⟩

/-- Read byte `i` of a little-endian packed byte array. -/
def sqGet (n i : Nat) : Nat := n / 256 ^ i % 256

/-- Write byte `i` of a little-endian packed byte array. -/
def sqSet (n i v : Nat) : Nat :=
  n / 256 ^ (i + 1) * 256 ^ (i + 1) + v % 256 * 256 ^ i + n % 256 ^ i

/- ### Constants from `base/base.go` -/

def OTB : Nat := 0x7F
def BLACK : Nat := 0
def WHITE : Nat := 1
def COLOR_ONLY_MASK : Nat := 1
def COLOR_TEST_MASK : Nat := 129
def NONE : Nat := 0
def EMPTY : Nat := 128
def PAWN : Nat := 2
def KNIGHT : Nat := 4
def BISHOP : Nat := 8
def ROOK : Nat := 16
def QUEEN : Nat := 32
def KING : Nat := 64
def PIECE_MASK : Nat := 126

def BPAWN : Nat := PAWN ||| BLACK
def BKNIGHT : Nat := KNIGHT ||| BLACK
def BBISHOP : Nat := BISHOP ||| BLACK
def BROOK : Nat := ROOK ||| BLACK
def BQUEEN : Nat := QUEEN ||| BLACK
def BKING : Nat := KING ||| BLACK
def WPAWN : Nat := PAWN ||| WHITE
def WKNIGHT : Nat := KNIGHT ||| WHITE
def WBISHOP : Nat := BISHOP ||| WHITE
def WROOK : Nat := ROOK ||| WHITE
def WQUEEN : Nat := QUEEN ||| WHITE
def WKING : Nat := KING ||| WHITE

/- ### Constants from `board.go` -/

def CHECK_NONE : Nat := OTB
def CHECK_DOUBLE_CHECK : Nat := 0x0F
def CHECK_CHECKMATE : Nat := 0x1F

/-- `Lookup0x88` from `board.go`: 8x8 indexes to 0x88 indexes. -/
def Lookup0x88 : List Nat :=
  [0x00, 0x01, 0x02, 0x03, 0x04, 0x05, 0x06, 0x07,
   0x10, 0x11, 0x12, 0x13, 0x14, 0x15, 0x16, 0x17,
   0x20, 0x21, 0x22, 0x23, 0x24, 0x25, 0x26, 0x27,
   0x30, 0x31, 0x32, 0x33, 0x34, 0x35, 0x36, 0x37,
   0x40, 0x41, 0x42, 0x43, 0x44, 0x45, 0x46, 0x47,
   0x50, 0x51, 0x52, 0x53, 0x54, 0x55, 0x56, 0x57,
   0x60, 0x61, 0x62, 0x63, 0x64, 0x65, 0x66, 0x67,
   0x70, 0x71, 0x72, 0x73, 0x74, 0x75, 0x76, 0x77]

/- ### Direction tables.
Modelled from the spec: the direction/offset tables (`KING_DIRS`,
`DIAGONAL_DIRS`, `ORTHOGONAL_DIRS`, `KNIGHT_DIRS`, `PAWN_PUSH_DIRS`,
`PAWN_CAPTURE_DIRS`, `PAWN_BASE_RANK`, `PAWN_PROMOTE_RANK`) are declared in a
repository file that is not under `src/`.  The spec gives the step vectors
`±1, ±16, ±15, ±17, ±14, ±18, …` (§4.C) and requires `KING_DIRS[0]` to be the
king-side castle step and `KING_DIRS[1]` the queen-side step (§4.H.1 uses
`targets[0]`/`targets[1]`).  Directions are two's-complement bytes. -/

def KING_DIRS : List Nat := [1, 255, 16, 240, 15, 241, 17, 239]
def DIAGONAL_DIRS : List Nat := [15, 17, 241, 239]
def ORTHOGONAL_DIRS : List Nat := [1, 16, 255, 240]
def KNIGHT_DIRS : List Nat := [14, 18, 31, 33, 242, 238, 225, 223]
/-- Indexed by color (BLACK pushes south `-16`, WHITE pushes north `+16`). -/
def PAWN_PUSH_DIRS : List Nat := [240, 16]
/-- `PAWN_CAPTURE_DIRS[color]`: black captures `-15, -17`; white `+15, +17`. -/
def PAWN_CAPTURE_DIRS : List (List Nat) := [[241, 239], [15, 17]]
/-- Pawn base rank index per color (black rank 7, white rank 2). -/
def PAWN_BASE_RANK : List Nat := [6, 1]
/-- Pawn promotion rank index per color (black rank 1, white rank 8). -/
def PAWN_PROMOTE_RANK : List Nat := [0, 7]

/- ### Castling tables.
Modelled from the spec (§4.H.1, §4.I): rook home squares, the castling path
squares next to the king (first entry is the rook's destination, second the
king's destination, long castling also checks the b-file square), and the
king's from/to pattern used by move application to detect castling.
Indexed by color, BLACK first. -/

def CASTLING_ROOK_SHORT : List Nat := [0x77, 0x07]
def CASTLING_ROOK_LONG : List Nat := [0x70, 0x00]
def CASTLING_PATH_SHORT : List (List Nat) := [[0x75, 0x76], [0x05, 0x06]]
def CASTLING_PATH_LONG : List (List Nat) := [[0x73, 0x72, 0x71], [0x03, 0x02, 0x01]]
def CASTLING_DETECT_SHORT : List (List Nat) := [[0x74, 0x76], [0x04, 0x06]]
def CASTLING_DETECT_LONG : List (List Nat) := [[0x74, 0x72], [0x04, 0x02]]

/- ### Info-board encoding.
Modelled from the spec (§3 "Info board entries"): an info byte carries a pin
marker `1..8` (low nibble) and flag bits CHECK, FORBIDDEN_ESCAPE and
MAYBE_PINNED.  The concrete bit layout is not in `src/`; any layout with a
nibble-valued pin counter and disjoint flag bits realizes the spec. -/

def INFO_NONE : Nat := 0
def INFO_PIN_FIRST : Nat := 1
def INFO_MASK_PIN : Nat := 0x0F
def INFO_MASK_CHECK : Nat := 0x10
def INFO_MASK_FORBIDDEN_ESCAPE : Nat := 0x20
def INFO_MASK_MAYBE_PINNED : Nat := 0x40

def EP_TYPE_NONE : Nat := 0
def EP_TYPE_CAPTURE : Nat := 1
def EP_TYPE_CREATE : Nat := 2

/- ### Functions from `base/base.go` -/

/-- `Color.FlipColor` / `.Flip` (the board code calls it `Flip`): `c ^ 1`. -/
def flipColor (c : Nat) : Nat := c ^^^ 1

/-- `Piece.PieceColor`. -/
def pieceColor (p : Nat) : Nat := p &&& COLOR_ONLY_MASK

/-- `Piece.HasColor`. -/
def hasColor (p color : Nat) : Bool := (COLOR_TEST_MASK &&& p) == color

/-- `Piece.IsType` / `Piece.Contains` (the diff-table values are bitsets;
membership is a mask test). -/
def contains (p piece : Nat) : Bool := (p &&& piece) != 0

/-- `Square.IsEmpty`. -/
def isEmptyP (p : Nat) : Bool := p == EMPTY

/-- `Square.IsLegal` / `.OnBoard`: playable iff `sq AND 0x88 == 0`. -/
def onBoard (sq : Nat) : Bool := (sq &&& 0x88) == 0

/-- `Square.Rank`. -/
def rankOf (sq : Nat) : Nat := sq >>> 4

/-- `Square.IsPawnBaseRank`. -/
def isPawnBaseRank (sq color : Nat) : Bool :=
  PAWN_BASE_RANK.getD color 0 == rankOf sq

/-- `Square.IsPawnPromoting`. -/
def isPawnPromoting (sq color : Nat) : Bool :=
  PAWN_PROMOTE_RANK.getD color 0 == rankOf sq

/-- Modelled from the spec (§3): each playable square `idx` has its info twin
at `idx | 0x08` (`Square.ToInfoIndex`). -/
def toInfoIndex (sq : Nat) : Nat := sq ||| 0x08

/-- Modelled from the spec (§4.C): `Square.Diff` packs a square delta as
`0x77 + (from - to)` in wrapping byte arithmetic. -/
def sqDiff (a b : Nat) : Nat := (0x77 + a + 256 - b) % 256

/-- Adding a (possibly negative, byte-encoded) direction to a square:
`Square(int8(sq) + dir)`. -/
def sqAdd (sq dir : Nat) : Nat := (sq + dir) % 256

/-- Negate a byte-encoded direction (used for `stepSq -= diffdir`). -/
def negDir (d : Nat) : Nat := (256 - d) % 256

/-- `Info.Set`: `i |= mask`. -/
def infoSet (i mask : Nat) : Nat := i ||| mask

/-- `Info.IsSet`: mask test. -/
def infoIsSet (i mask : Nat) : Bool := (i &&& mask) != 0

/-- `Info.Pinval`: the pin-marker nibble. -/
def pinval (i : Nat) : Nat := i &&& INFO_MASK_PIN

/- ### `populateDiffMaps` (`board.go` lines 68-144) -/

/-- One sliding ray probe of `populateDiffMaps`: starting at `cur`, step by
`dir` until the target `toSq` is hit (true) or the board is left (false).
(The `target.Flip()` statement in the Go source discards its result and has
no effect.)  Fuel 16 is ample: every ray leaves the board within 8 steps. -/
def slideReach : Nat → Nat → Nat → Nat → Bool
  | 0, _, _, _ => false
  | fuel + 1, cur, dir, toSq =>
    let target := sqAdd cur dir
    if !onBoard target then false
    else if target == toSq then true
    else slideReach fuel target dir toSq

/-- Find the first direction in `dirs` whose ray fromSq `fromSq` reaches `toSq`. -/
def findSlideDir (fromSq toSq : Nat) : List Nat → Option Nat
  | [] => none
  | dir :: rest =>
    if slideReach 16 fromSq dir toSq then some dir else findSlideDir fromSq toSq rest

/-- The relation computation of `populateDiffMaps` for one `(from, to)`
pair: which piece kinds can make this move in one geometric primitive, and
the step direction along the line.  Mirrors the Go loop body: kings, then
diagonal sliders (a hit skips the rest), then orthogonal sliders, then
knights. -/
def diffPairEntry (fromSq toSq : Nat) : Nat × Nat :=
  let pbitsK := if KING_DIRS.any (fun dir => sqAdd fromSq dir == toSq) then KING else 0
  match findSlideDir fromSq toSq DIAGONAL_DIRS with
  | some dir => (pbitsK ||| BISHOP ||| QUEEN, dir)
  | Option.none =>
    match findSlideDir fromSq toSq ORTHOGONAL_DIRS with
    | some dir => (pbitsK ||| ROOK ||| QUEEN, dir)
    | Option.none =>
      match KNIGHT_DIRS.find? (fun dir => sqAdd fromSq dir == toSq) with
      | some dir => (pbitsK ||| KNIGHT, dir)
      | Option.none => (pbitsK, 0)

/-- The first pair of playable squares realizing packed delta `d` (the 0x88
geometry makes every realizing pair of a delta produce the same
`diffPairEntry`). -/
def findDiffPair (d : Nat) : Option (Nat × Nat) :=
  (Lookup0x88.find? (fun f => onBoard (sqAdd f (0x77 + 256 - d)))).map
    (fun f => (f, sqAdd f (0x77 + 256 - d)))

/-- The table entry for packed delta `d`: `(SQUARE_DIFFS[d], DIFF_DIRS[d])`.
Deltas realized by no pair of playable squares keep the zero value of the
Go arrays.  One deliberate divergence from the Go loop: Go's `diffdir`
variable is declared outside the loops, so at deltas whose relation has no
direction (no relation at all, since adjacent king steps are also slider
steps) `DIFF_DIRS` keeps a stale leftover value where this model stores 0;
both the generator and the attack detector read `DIFF_DIRS[d]` only under a
`SQUARE_DIFFS[d]` kind-match guard, so those entries are never read. -/
def diffEntry (d : Nat) : Nat × Nat :=
  match findDiffPair d with
  | some ft => diffPairEntry ft.1 ft.2
  | Option.none => (0, 0)

/-- Pack table entries `g lo, …, g (lo+n-1)` into bytes `lo..lo+n-1` of a
`Nat`, by balanced splitting (the entries occupy disjoint byte slots). -/
def tableFold (g : Nat → Nat) : Nat → Nat → Nat → Nat
  | 0, _, _ => 0
  | fuel + 1, lo, n =>
    if n == 0 then 0
    else if n == 1 then g lo * 256 ^ lo
    else tableFold g fuel lo (n / 2) + tableFold g fuel (lo + n / 2) (n - n / 2)

/-- `populateDiffMaps`: the two packed 240-byte tables. -/
def populateDiffMaps : Nat × Nat :=
  (tableFold (fun d => (diffEntry d).1) 16 0 240,
   tableFold (fun d => (diffEntry d).2) 16 0 240)

/-- `SQUARE_DIFFS` (packed 240-byte table), as a literal so that kernel
evaluation of the engine does not rebuild the table at every use site;
`SQUARE_DIFFS_eq_populate` checks it against `populateDiffMaps`. -/
def SQUARE_DIFFS : Nat := 57965786853508998405186245432643851235366950166814236168397550819693538267511366116793856831431764377364445734868530608289622870642861830668730662356164149896598215525198352560940859091220232972814931078593005684958769940198695087280481396763322190184535461180457153632803316698298092074162950999432746938530534230535910009925346989928962379690335347411000165911828343331353525220232435092347279172060774149236855374145548541379018489094369923781580692199447001543234646866517070103536152635494790480155020765759443456595139339422070054065114055195812690474744015410354454568

/-- `DIFF_DIRS` (packed 240-byte table of byte-encoded directions), as a
literal; `DIFF_DIRS_eq_populate` checks it against `populateDiffMaps`. -/
def DIFF_DIRS : Nat := 346345576449716264529796655082828548467467617266396903488936648596073878638532541570064862472388149438448647051738563762991074854352460576531464327630944054664355234817509000684525583576205837578518544356436184640628811823345497301388270970433058080354406311373636958564566863992116893251060114233878473211528684644651889193730615276480723618224605189057544608734579340284187285998766175740197049054566729450212998224083072493923446292457447322507786748267262499369992683459957672699316385650116619404987642294142668530758441159290580610144313767471824099008618404788148633617

/-- The literal `SQUARE_DIFFS` is the table `populateDiffMaps` builds. -/
theorem SQUARE_DIFFS_eq_populate : SQUARE_DIFFS = populateDiffMaps.1 := by decide

/-- The literal `DIFF_DIRS` is the table `populateDiffMaps` builds. -/
theorem DIFF_DIRS_eq_populate : DIFF_DIRS = populateDiffMaps.2 := by decide

/-- Table read `SQUARE_DIFFS[d]`. -/
def squareDiffsAt (d : Nat) : Nat := sqGet SQUARE_DIFFS d

/-- Table read `DIFF_DIRS[d]`. -/
def diffDirsAt (d : Nat) : Nat := sqGet DIFF_DIRS d

/- ### Piece lists, moves, move lists.
Modelled from the spec (§3 "Piece lists", §4.I, §6): a piece list is an array
of occupied squares with a size; `Add` appends, `Remove` deletes a square's
entry, `Move` rewrites an entry in place.  A move is the triple
`(from, to, promo)` (the source packs it into 16 bits; `All` unpacks it).
A move list collects moves in emission order (`Put`). -/

def plAdd (l : List Nat) (sq : Nat) : List Nat := l ++ [sq]

def plRemove (l : List Nat) (sq : Nat) : List Nat := l.erase sq

def plMove (l : List Nat) (fromSq toSq : Nat) : List Nat :=
  l.map (fun s => if s == fromSq then toSq else s)

structure BitMove where
  fromSq : Nat
  toSq : Nat
  promo : Nat
deriving DecidableEq, Repr

/-- `NewBitMove` packs `(from, to, promo)` into a move.  The 16-bit packing
only keeps the piece-kind bits of `promo`: pawn-move emitters pass `EMPTY`
(bit 7) as the promotion of a non-promoting move, and move application
tests `promo != NONE`, so `EMPTY` must pack to `NONE`. -/
def NewBitMove (fromSq toSq promo : Nat) : BitMove := ⟨fromSq, toSq, promo &&& PIECE_MASK⟩

/- ### The `Board` struct (`board.go` lines 24-40).
Per-color `[2]`-arrays become pairs of fields (`B`/`W` suffix) with indexed
accessors; `Squares [64*2]Piece` is the packed byte array `squares`. -/

structure Board where
  squares : Nat
  castleShortB : Bool
  castleShortW : Bool
  castleLongB : Bool
  castleLongW : Bool
  moveNumber : Nat
  drawCounter : Nat
  checkInfo : Nat
  epSquare : Nat
  player : Nat
  kingB : Nat
  kingW : Nat
  slidersB : List Nat
  slidersW : List Nat
  queensB : List Nat
  queensW : List Nat
  rooksB : List Nat
  rooksW : List Nat
  bishopsB : List Nat
  bishopsW : List Nat
  knightsB : List Nat
  knightsW : List Nat
  pawnsB : List Nat
  pawnsW : List Nat
deriving DecidableEq, Repr

namespace Board

def kings (b : Board) (c : Nat) : Nat := if c == WHITE then b.kingW else b.kingB
def sliders (b : Board) (c : Nat) : List Nat := if c == WHITE then b.slidersW else b.slidersB
def queens (b : Board) (c : Nat) : List Nat := if c == WHITE then b.queensW else b.queensB
def rooks (b : Board) (c : Nat) : List Nat := if c == WHITE then b.rooksW else b.rooksB
def bishops (b : Board) (c : Nat) : List Nat := if c == WHITE then b.bishopsW else b.bishopsB
def knights (b : Board) (c : Nat) : List Nat := if c == WHITE then b.knightsW else b.knightsB
def pawns (b : Board) (c : Nat) : List Nat := if c == WHITE then b.pawnsW else b.pawnsB
def castleShort (b : Board) (c : Nat) : Bool := if c == WHITE then b.castleShortW else b.castleShortB
def castleLong (b : Board) (c : Nat) : Bool := if c == WHITE then b.castleLongW else b.castleLongB

def setKings (b : Board) (c v : Nat) : Board :=
  if c == WHITE then { b with kingW := v } else { b with kingB := v }
def setSliders (b : Board) (c : Nat) (l : List Nat) : Board :=
  if c == WHITE then { b with slidersW := l } else { b with slidersB := l }
def setQueens (b : Board) (c : Nat) (l : List Nat) : Board :=
  if c == WHITE then { b with queensW := l } else { b with queensB := l }
def setRooks (b : Board) (c : Nat) (l : List Nat) : Board :=
  if c == WHITE then { b with rooksW := l } else { b with rooksB := l }
def setBishops (b : Board) (c : Nat) (l : List Nat) : Board :=
  if c == WHITE then { b with bishopsW := l } else { b with bishopsB := l }
def setKnights (b : Board) (c : Nat) (l : List Nat) : Board :=
  if c == WHITE then { b with knightsW := l } else { b with knightsB := l }
def setPawns (b : Board) (c : Nat) (l : List Nat) : Board :=
  if c == WHITE then { b with pawnsW := l } else { b with pawnsB := l }
def setCastleShort (b : Board) (c : Nat) (v : Bool) : Board :=
  if c == WHITE then { b with castleShortW := v } else { b with castleShortB := v }
def setCastleLong (b : Board) (c : Nat) (v : Bool) : Board :=
  if c == WHITE then { b with castleLongW := v } else { b with castleLongB := v }

end Board

/-- The 64 right-half info indexes, in the order the unrolled
`clearMetaInfo` (`board.go` lines 244-312) writes them. -/
def INFO_INDEXES : List Nat :=
  [0x08, 0x09, 0x0a, 0x0b, 0x0c, 0x0d, 0x0e, 0x0f,
   0x18, 0x19, 0x1a, 0x1b, 0x1c, 0x1d, 0x1e, 0x1f,
   0x28, 0x29, 0x2a, 0x2b, 0x2c, 0x2d, 0x2e, 0x2f,
   0x38, 0x39, 0x3a, 0x3b, 0x3c, 0x3d, 0x3e, 0x3f,
   0x48, 0x49, 0x4a, 0x4b, 0x4c, 0x4d, 0x4e, 0x4f,
   0x58, 0x59, 0x5a, 0x5b, 0x5c, 0x5d, 0x5e, 0x5f,
   0x68, 0x69, 0x6a, 0x6b, 0x6c, 0x6d, 0x6e, 0x6f,
   0x78, 0x79, 0x7a, 0x7b, 0x7c, 0x7d, 0x7e, 0x7f]

/-- `Board.clearMetaInfo`: reset `CheckInfo` and zero the 64 info bytes. -/
def clearMetaInfo (b : Board) : Board :=
  { b with
    checkInfo := CHECK_NONE
    squares := INFO_INDEXES.foldl (fun n i => sqSet n i INFO_NONE) b.squares }

/- ### `IsSquareAttacked` / `IsSqAttackedBySlider` (`board.go` lines 464-555) -/

/-- The inner ray walk of `IsSqAttackedBySlider`: starting from
`sq + diffdir`, skip empty squares; a friendly piece blocks (no attack), an
enemy piece of the slider's type attacks, any other enemy blocks. -/
def sliderWalk (sqs color ptype diffdir : Nat) : Nat → Nat → Bool
  | 0, _ => false
  | fuel + 1, stepSq =>
    let curPiece := sqGet sqs stepSq
    if isEmptyP curPiece then sliderWalk sqs color ptype diffdir fuel (sqAdd stepSq diffdir)
    else if hasColor curPiece color then false
    else if contains curPiece ptype then true
    else false

/-- `Board.IsSqAttackedBySlider`. -/
def IsSqAttackedBySlider (b : Board) (color sq ignoreSq : Nat) : Bool :=
  let oppColor := flipColor color
  (b.sliders oppColor).any (fun sliderSq =>
    let ptype := sqGet b.squares sliderSq &&& PIECE_MASK
    if sliderSq == ignoreSq then false
    else
      let diff := sqDiff sq sliderSq
      if contains (squareDiffsAt diff) ptype then
        let diffdir := diffDirsAt diff
        sliderWalk b.squares color ptype diffdir 16 (sqAdd sq diffdir)
      else false)

/-- `Board.IsSquareAttacked`: knights, then sliders, then pawns, then the
enemy king, all short-circuiting.  Only knight- and slider-list entries equal
to `ignoreSq` are skipped. -/
def IsSquareAttacked (b : Board) (sq ignoreSq color : Nat) : Bool :=
  let oppColor := flipColor color
  -- 1. knights
  if (b.knights oppColor).any (fun knightSq =>
      knightSq != ignoreSq && contains (squareDiffsAt (sqDiff knightSq sq)) KNIGHT) then
    true
  -- 3. sliders
  else if IsSqAttackedBySlider b color sq ignoreSq then
    true
  else
    -- 2. pawns
    let oppPawn := PAWN ||| oppColor
    let capDirs := PAWN_CAPTURE_DIRS.getD color []
    let maybePawnSq0 := sqAdd sq (capDirs.getD 0 0)
    if onBoard maybePawnSq0 && (sqGet b.squares maybePawnSq0 == oppPawn) then true
    else
      let maybePawnSq1 := sqAdd sq (capDirs.getD 1 0)
      if onBoard maybePawnSq1 && (sqGet b.squares maybePawnSq1 == oppPawn) then true
      else
        -- 0. kings
        let oppKingSq := b.kings oppColor
        contains (squareDiffsAt (sqDiff oppKingSq sq)) KING

/- ### `DetectChecksAndPins` / `DetectSliderChecksAndPins`
(`board.go` lines 557-728) -/

/-- Mutable state threaded through check/pin detection: the packed squares,
`CheckInfo`, the next pin marker and the phase's check counter. -/
structure DetState where
  sqs : Nat
  ci : Nat
  pm : Nat
  cc : Nat

/-- The king-to-slider ray walk of `DetectSliderChecksAndPins`.  Returns the
`info` value the Go loop ends with: `CHECK` for a check, the current pin
marker for a pin, `INFO_NONE` otherwise. -/
def detectWalk (sqs color sliderSq diffdir pm : Nat) : Nat → Nat → Nat → Nat
  | 0, _, info => info
  | fuel + 1, stepSq, info =>
    let curPiece := sqGet sqs stepSq
    if isEmptyP curPiece then
      detectWalk sqs color sliderSq diffdir pm fuel (sqAdd stepSq diffdir) info
    else if hasColor curPiece color then
      if info == INFO_NONE then
        detectWalk sqs color sliderSq diffdir pm fuel (sqAdd stepSq diffdir)
          (infoSet info INFO_MASK_MAYBE_PINNED)
      else INFO_NONE
    else
      if stepSq == sliderSq then
        if info == INFO_NONE then infoSet info INFO_MASK_CHECK else pm
      else INFO_NONE

/-- Mark every square from `sliderSq` back to (excluding) `kingSq` with
`info` on the info board. -/
def markRay (kingSq back info : Nat) : Nat → Nat → Nat → Nat
  | 0, sqs, _ => sqs
  | fuel + 1, sqs, stepSq =>
    if stepSq == kingSq then sqs
    else
      markRay kingSq back info fuel
        (sqSet sqs (toInfoIndex stepSq)
          (infoSet (sqGet sqs (toInfoIndex stepSq)) info))
        (sqAdd stepSq back)

/-- Per-slider body of `DetectSliderChecksAndPins`; the `Bool` is the early
"double check" return that stops the piece-list loop (with the slider's
markings already applied). -/
def detectSliderStep (color kingSq ptype ccount : Nat) (st : DetState)
    (sliderSq : Nat) : DetState × Bool :=
  let diff := sqDiff kingSq sliderSq
  let diffTypes := squareDiffsAt diff
  if contains diffTypes ptype then
    let diffdir := diffDirsAt diff
    let info := detectWalk st.sqs color sliderSq diffdir st.pm 16 (sqAdd kingSq diffdir) INFO_NONE
    let isCheck := infoIsSet info INFO_MASK_CHECK
    let st1 : DetState :=
      { st with
        ci := if isCheck then sliderSq else st.ci
        cc := if isCheck then st.cc + 1 else st.cc
        pm := if pinval info != 0 then st.pm + 1 else st.pm }
    let st2 : DetState :=
      if isCheck || pinval info != 0 then
        let sqs1 := markRay kingSq (negDir diffdir) info 16 st1.sqs sliderSq
        let sqs2 :=
          if isCheck then
            let stepSq := sqAdd kingSq (negDir diffdir)
            if onBoard stepSq then
              sqSet sqs1 (toInfoIndex stepSq)
                (infoSet (sqGet sqs1 (toInfoIndex stepSq)) INFO_MASK_FORBIDDEN_ESCAPE)
            else sqs1
          else sqs1
        { st1 with sqs := sqs2 }
      else st1
    (st2, decide (st2.cc + ccount > 1))
  else (st, false)

/-- `Board.DetectSliderChecksAndPins` over one piece list; an early double
check stops the loop (the final state is still the result). -/
def detectSliderList (color kingSq ptype ccount : Nat) : DetState → List Nat → DetState
  | st, [] => st
  | st, sliderSq :: rest =>
    match detectSliderStep color kingSq ptype ccount st sliderSq with
    | (st1, false) => detectSliderList color kingSq ptype ccount st1 rest
    | (st1, true) => st1

/-- Phase 1 of `DetectChecksAndPins`: knight checks (first hit only). -/
def detectKnightPhase (b0 : Board) (color : Nat) : DetState :=
  let oppColor := flipColor color
  let kingSq := b0.kings color
  match (b0.knights oppColor).find? (fun knightSq =>
      contains (squareDiffsAt (sqDiff knightSq kingSq)) KNIGHT) with
  | some knightSq =>
    { sqs := sqSet b0.squares (toInfoIndex knightSq)
        (infoSet (sqGet b0.squares (toInfoIndex knightSq)) INFO_MASK_CHECK)
      ci := knightSq, pm := INFO_PIN_FIRST, cc := 1 }
  | Option.none =>
    { sqs := b0.squares, ci := b0.checkInfo, pm := INFO_PIN_FIRST, cc := 0 }

/-- Phase 2 of `DetectChecksAndPins`: pawn checks (first hit only). -/
def detectPawnPhase (b0 : Board) (color : Nat) (st0 : DetState) : DetState :=
  let oppColor := flipColor color
  let kingSq := b0.kings color
  match (b0.pawns oppColor).find? (fun pawnSq =>
      (PAWN_CAPTURE_DIRS.getD oppColor []).any (fun dir => kingSq == sqAdd pawnSq dir)) with
  | some pawnSq =>
    { st0 with
      sqs := sqSet st0.sqs (toInfoIndex pawnSq)
        (infoSet (sqGet st0.sqs (toInfoIndex pawnSq)) INFO_MASK_CHECK)
      ci := pawnSq, cc := st0.cc + 1 }
  | Option.none => st0

/-- `Board.DetectChecksAndPins`: clear the info board, then detect knight,
pawn and slider checks (and pins) for `color`, writing the info bytes and
`CheckInfo`. -/
def DetectChecksAndPins (b : Board) (color : Nat) : Board :=
  let b0 := clearMetaInfo b
  let oppColor := flipColor color
  let kingSq := b0.kings color
  let st1 := detectPawnPhase b0 color (detectKnightPhase b0 color)
  -- 3.a queens
  let stQ := detectSliderList color kingSq QUEEN st1.cc
    { st1 with cc := 0 } (b0.queens oppColor)
  let ccQ := st1.cc + stQ.cc
  if ccQ > 1 then { b0 with squares := stQ.sqs, checkInfo := CHECK_DOUBLE_CHECK }
  else
    -- 3.b bishops
    let stB := detectSliderList color kingSq BISHOP ccQ
      { stQ with cc := 0 } (b0.bishops oppColor)
    let ccB := ccQ + stB.cc
    if ccB > 1 then { b0 with squares := stB.sqs, checkInfo := CHECK_DOUBLE_CHECK }
    else
      -- 3.c rooks
      let stR := detectSliderList color kingSq ROOK ccB
        { stB with cc := 0 } (b0.rooks oppColor)
      let ccR := ccB + stR.cc
      if ccR > 1 then { b0 with squares := stR.sqs, checkInfo := CHECK_DOUBLE_CHECK }
      else { b0 with squares := stR.sqs, checkInfo := stR.ci }

/- ### Move generators (`board.go` lines 730-1194) -/

/-- The body of the 8-direction loop of `GenerateKingMoves`
(`board.go` lines 961-981): try direction `i`, record it in `targets`
when safe, and emit the move. -/
def kingDirStep (b : Board) (color fromSq : Nat) (acc : List Bool × List BitMove)
    (i : Nat) : List Bool × List BitMove :=
  let dir := KING_DIRS.getD i 0
  let toSq := sqAdd fromSq dir
  if onBoard toSq then
    let tpiece := sqGet b.squares toSq
    if hasColor tpiece color then acc
    else if IsSquareAttacked b toSq OTB color then acc
    else
      let targets1 := acc.1.set i true
      if !infoIsSet (sqGet b.squares (toInfoIndex toSq)) INFO_MASK_FORBIDDEN_ESCAPE then
        if !hasColor tpiece color then
          (targets1, acc.2 ++ [NewBitMove fromSq toSq NONE])
        else (targets1, acc.2)
      else (targets1, acc.2)
  else acc

/-- `Board.GenerateKingMoves` (`board.go` lines 952-1027).  The 8-direction
loop records safe directions in `targets` and emits normal/capture moves;
castling moves follow when not in check. -/
def GenerateKingMoves (b : Board) (mlist : List BitMove) (color : Nat) : List BitMove :=
  let fromSq := b.kings color
  let init : List Bool × List BitMove := (List.replicate 8 false, mlist)
  let tm := (List.range 8).foldl (kingDirStep b color fromSq) init
  let targets := tm.1
  let ml1 := tm.2
  if b.checkInfo != CHECK_NONE then ml1
  else
    -- a. short castle
    let ml2 :=
      if b.castleShort color then
        let path := CASTLING_PATH_SHORT.getD color []
        let sq1 := path.getD 0 0
        let sq2 := path.getD 1 0
        if isEmptyP (sqGet b.squares sq1) && isEmptyP (sqGet b.squares sq2) then
          if targets.getD 0 false && !IsSquareAttacked b sq2 OTB color then
            ml1 ++ [NewBitMove fromSq sq2 NONE]
          else ml1
        else ml1
      else ml1
    -- b. long castle
    if b.castleLong color then
      let path := CASTLING_PATH_LONG.getD color []
      let sq1 := path.getD 0 0
      let sq2 := path.getD 1 0
      let sq3 := path.getD 2 0
      if isEmptyP (sqGet b.squares sq1) && isEmptyP (sqGet b.squares sq2)
          && isEmptyP (sqGet b.squares sq3) then
        if targets.getD 1 false && !IsSquareAttacked b sq2 OTB color then
          ml2 ++ [NewBitMove fromSq sq2 NONE]
        else ml2
      else ml2
    else ml2

/-- `Board.GenerateKnightMoves` (`board.go` lines 914-948). -/
def GenerateKnightMoves (b : Board) (mlist : List BitMove) (color : Nat) : List BitMove :=
  let isCheck := onBoard b.checkInfo
  (b.knights color).foldl
    (fun ml fromSq =>
      if pinval (sqGet b.squares (toInfoIndex fromSq)) != 0 then ml
      else
        KNIGHT_DIRS.foldl
          (fun ml dir =>
            let toSq := sqAdd fromSq dir
            if onBoard toSq then
              let tpiece := sqGet b.squares toSq
              if isCheck && !infoIsSet (sqGet b.squares (toInfoIndex toSq)) INFO_MASK_CHECK then
                ml
              else if !hasColor tpiece color then
                ml ++ [NewBitMove fromSq toSq NONE]
              else ml
            else ml)
          ml)
    mlist

/-- The per-direction stepping loop of `GenerateSlidingMoves`. -/
def slideGenInner (b : Board) (color fromSq dir : Nat) (isPinned isCheck : Bool) :
    Nat → Nat → List BitMove → List BitMove
  | 0, _, ml => ml
  | fuel + 1, toSq, ml =>
    if !onBoard toSq then ml
    else if isPinned
        && sqGet b.squares (toInfoIndex toSq) != sqGet b.squares (toInfoIndex fromSq) then
      ml
    else if isCheck && !infoIsSet (sqGet b.squares (toInfoIndex toSq)) INFO_MASK_CHECK then
      let tpiece := sqGet b.squares toSq
      if !isEmptyP tpiece then ml
      else slideGenInner b color fromSq dir isPinned isCheck fuel (sqAdd toSq dir) ml
    else
      let tpiece := sqGet b.squares toSq
      if hasColor tpiece color then ml
      else if isEmptyP tpiece then
        slideGenInner b color fromSq dir isPinned isCheck fuel (sqAdd toSq dir)
          (ml ++ [NewBitMove fromSq toSq NONE])
      else ml ++ [NewBitMove fromSq toSq NONE]

/-- `Board.GenerateSlidingMoves` (`board.go` lines 1135-1194). -/
def GenerateSlidingMoves (b : Board) (mlist : List BitMove) (color _ptype : Nat)
    (dirs : List Nat) (plist : List Nat) : List BitMove :=
  let isCheck := onBoard b.checkInfo
  plist.foldl
    (fun ml fromSq =>
      let isPinned := pinval (sqGet b.squares (toInfoIndex fromSq)) != 0
      dirs.foldl
        (fun ml dir => slideGenInner b color fromSq dir isPinned isCheck 16 (sqAdd fromSq dir) ml)
        ml)
    mlist

/-- `Board.GenerateBishopMoves`. -/
def GenerateBishopMoves (b : Board) (mlist : List BitMove) (color : Nat) : List BitMove :=
  GenerateSlidingMoves b mlist color BISHOP DIAGONAL_DIRS (b.bishops color)

/-- `Board.GenerateRookMoves`. -/
def GenerateRookMoves (b : Board) (mlist : List BitMove) (color : Nat) : List BitMove :=
  GenerateSlidingMoves b mlist color ROOK ORTHOGONAL_DIRS (b.rooks color)

/-- `Board.GenerateQueenMoves`: orthogonal then diagonal slides. -/
def GenerateQueenMoves (b : Board) (mlist : List BitMove) (color : Nat) : List BitMove :=
  let ml1 := GenerateSlidingMoves b mlist color QUEEN ORTHOGONAL_DIRS (b.queens color)
  GenerateSlidingMoves b ml1 color QUEEN DIAGONAL_DIRS (b.queens color)

/-- `Board.tryPawnMoveLegality` (`board.go` lines 886-910): fake-play the
pawn move on the raw board, test the king for attack (ignoring `capSq`),
then undo the fake move. -/
def tryPawnMoveLegality (b : Board) (fromSq toSq capSq capPiece color : Nat) :
    Board × Bool :=
  let sqs1 := sqSet b.squares capSq EMPTY
  let sqs2 := sqSet sqs1 toSq (sqGet sqs1 fromSq)
  let sqs3 := sqSet sqs2 fromSq EMPTY
  let legal := !IsSquareAttacked { b with squares := sqs3 } (b.kings color) capSq color
  -- undo the fake move
  let sqs4 := sqSet sqs3 fromSq (PAWN ||| color)
  let sqs5 :=
    if capSq != toSq then sqSet (sqSet sqs4 capSq capPiece) toSq EMPTY
    else sqSet sqs4 toSq capPiece
  ({ b with squares := sqs5 }, legal)

/-- `Board.newPawnMoveIfLegal` (`board.go` lines 855-884). -/
def newPawnMoveIfLegal (b : Board) (color fromSq toSq _ptype capPiece promtype eptype : Nat) :
    Board × BitMove × Bool :=
  if eptype == EP_TYPE_CAPTURE then
    let oppColor := flipColor color
    let capSq := sqAdd toSq (PAWN_PUSH_DIRS.getD oppColor 0)
    let bl := tryPawnMoveLegality b fromSq toSq capSq capPiece color
    if bl.2 then (bl.1, NewBitMove fromSq toSq promtype, true)
    else (bl.1, NewBitMove 0 0 0, false)
  else
    let frompinval := pinval (sqGet b.squares (toInfoIndex fromSq))
    let isPinned := frompinval != 0
    if isPinned && pinval (sqGet b.squares (toInfoIndex toSq)) != frompinval then
      (b, NewBitMove 0 0 0, false)
    else if onBoard b.checkInfo
        && !infoIsSet (sqGet b.squares (toInfoIndex toSq)) INFO_MASK_CHECK then
      (b, NewBitMove 0 0 0, false)
    else (b, NewBitMove fromSq toSq promtype, true)

/-- Promotion piece order of the `for prom := QUEEN; prom >= KNIGHT;
prom >>= 1` loops. -/
def PROMOTION_ORDER : List Nat := [QUEEN, ROOK, BISHOP, KNIGHT]

/-- The backwards en-passant probe of `GeneratePawnMoves`
(`board.go` lines 766-783), one capture direction at a time. -/
def epCapStep (color toSq : Nat) (acc : Board × List BitMove) (dir : Nat) :
    Board × List BitMove :=
  let oppColor := flipColor color
  let piece := PAWN ||| color
  let bc := acc.1
  let fromSq := sqAdd toSq dir
  let tpiece := sqGet bc.squares fromSq
  if onBoard fromSq && tpiece == piece then
    let bml := newPawnMoveIfLegal bc color fromSq toSq piece (PAWN ||| oppColor)
      EMPTY EP_TYPE_CAPTURE
    if bml.2.2 then (bml.1, acc.2 ++ [bml.2.1]) else (bml.1, acc.2)
  else acc

/-- The capture-direction body of the per-pawn loop of
`GeneratePawnMoves` (`board.go` lines 791-817). -/
def pawnCapStep (color fromSq : Nat) (acc : Board × List BitMove) (capdir : Nat) :
    Board × List BitMove :=
  let oppColor := flipColor color
  let piece := PAWN ||| color
  let bc := acc.1
  let toSq := sqAdd fromSq capdir
  if onBoard toSq then
    let tpiece := sqGet bc.squares toSq
    if hasColor tpiece oppColor then
      if isPawnPromoting toSq color then
        let bl := tryPawnMoveLegality bc fromSq toSq toSq tpiece color
        if bl.2 then
          (bl.1, acc.2 ++ PROMOTION_ORDER.map (fun prom => NewBitMove fromSq toSq prom))
        else (bl.1, acc.2)
      else
        let bml := newPawnMoveIfLegal bc color fromSq toSq piece tpiece EMPTY EP_TYPE_NONE
        if bml.2.2 then (bml.1, acc.2 ++ [bml.2.1]) else (bml.1, acc.2)
    else acc
  else acc

/-- The per-pawn body of `GeneratePawnMoves`: captures (with promotions),
single push (with promotions), double push. -/
def pawnGenOne (color : Nat) (acc : Board × List BitMove) (fromSq : Nat) :
    Board × List BitMove :=
  let piece := PAWN ||| color
  -- a. captures
  let acc1 := (PAWN_CAPTURE_DIRS.getD color []).foldl (pawnCapStep color fromSq) acc
  -- b. push by one
  let bc := acc1.1
  let toSq := sqAdd fromSq (PAWN_PUSH_DIRS.getD color 0)
  if isEmptyP (sqGet bc.squares toSq) then
    let acc2 :=
      if isPawnPromoting toSq color then
        let bl := tryPawnMoveLegality bc fromSq toSq toSq EMPTY color
        if bl.2 then
          (bl.1, acc1.2 ++ PROMOTION_ORDER.map (fun prom => NewBitMove fromSq toSq prom))
        else (bl.1, acc1.2)
      else
        let bml := newPawnMoveIfLegal bc color fromSq toSq piece EMPTY EMPTY EP_TYPE_NONE
        if bml.2.2 then (bml.1, acc1.2 ++ [bml.2.1]) else (bml.1, acc1.2)
    -- c. double push
    if isPawnBaseRank fromSq color then
      let toSq2 := sqAdd toSq (PAWN_PUSH_DIRS.getD color 0)
      if isEmptyP (sqGet acc2.1.squares toSq2) then
        let bml := newPawnMoveIfLegal acc2.1 color fromSq toSq2 piece EMPTY EMPTY EP_TYPE_CREATE
        if bml.2.2 then (bml.1, acc2.2 ++ [bml.2.1]) else (bml.1, acc2.2)
      else acc2
    else acc2
  else acc1

/-- `Board.GeneratePawnMoves` (`board.go` lines 752-853): en-passant
captures are found backwards from the e.p. square, then each pawn's
captures and pushes are generated. -/
def GeneratePawnMoves (b : Board) (mlist : List BitMove) (color : Nat) :
    Board × List BitMove :=
  let oppColor := flipColor color
  let piece := PAWN ||| color
  let acc0 :=
    if b.epSquare != OTB then
      let toSq := b.epSquare
      (PAWN_CAPTURE_DIRS.getD oppColor []).foldl (epCapStep color toSq) (b, mlist)
    else (b, mlist)
  (b.pawns color).foldl (pawnGenOne color) acc0

/-- `Board.GenerateAllLegalMoves` (`board.go` lines 730-748). -/
def GenerateAllLegalMoves (b : Board) (mlist : List BitMove) :
    Board × List BitMove :=
  let b1 := DetectChecksAndPins b b.player
  let ml := GenerateKingMoves b1 mlist b1.player
  if b1.checkInfo == CHECK_DOUBLE_CHECK then (b1, ml)
  else
    let ml1 := GenerateKnightMoves b1 ml b1.player
    let ml2 := GenerateQueenMoves b1 ml1 b1.player
    let ml3 := GenerateBishopMoves b1 ml2 b1.player
    let ml4 := GenerateRookMoves b1 ml3 b1.player
    GeneratePawnMoves b1 ml4 b1.player

/- ### Move application (`board.go` lines 318-462) -/

/-- `Board.addPiece`: place `piece` on `sq` and register it in its piece
lists.  The Go `default: panic` branch is `none`. -/
def addPiece (b : Board) (sq piece : Nat) : Option Board :=
  let b1 := { b with squares := sqSet b.squares sq piece }
  let ptype := piece &&& PIECE_MASK
  let color := pieceColor piece
  if ptype == PAWN then some (b1.setPawns color (plAdd (b1.pawns color) sq))
  else if ptype == KNIGHT then some (b1.setKnights color (plAdd (b1.knights color) sq))
  else if ptype == BISHOP then
    some ((b1.setBishops color (plAdd (b1.bishops color) sq)).setSliders color
      (plAdd (b1.sliders color) sq))
  else if ptype == ROOK then
    some ((b1.setRooks color (plAdd (b1.rooks color) sq)).setSliders color
      (plAdd (b1.sliders color) sq))
  else if ptype == QUEEN then
    some ((b1.setQueens color (plAdd (b1.queens color) sq)).setSliders color
      (plAdd (b1.sliders color) sq))
  else Option.none

/-- `Board.removePiece`: clear `sq` and remove it from its piece lists.
The Go `default: panic` branch is `none`. -/
def removePiece (b : Board) (sq : Nat) : Option Board :=
  let piece := sqGet b.squares sq
  let ptype := piece &&& PIECE_MASK
  let color := pieceColor piece
  let b1 := { b with squares := sqSet b.squares sq EMPTY }
  if ptype == PAWN then some (b1.setPawns color (plRemove (b1.pawns color) sq))
  else if ptype == KNIGHT then some (b1.setKnights color (plRemove (b1.knights color) sq))
  else if ptype == BISHOP then
    some ((b1.setBishops color (plRemove (b1.bishops color) sq)).setSliders color
      (plRemove (b1.sliders color) sq))
  else if ptype == ROOK then
    some ((b1.setRooks color (plRemove (b1.rooks color) sq)).setSliders color
      (plRemove (b1.sliders color) sq))
  else if ptype == QUEEN then
    some ((b1.setQueens color (plRemove (b1.queens color) sq)).setSliders color
      (plRemove (b1.sliders color) sq))
  else Option.none

/-- `Square.CreatesEnPassent`.  Modelled from the spec (§4.I): a pawn double
push (a two-rank move) creates an en-passant square. -/
def createsEnPassent (fromSq toSq : Nat) : Bool :=
  (fromSq + 32 == toSq) || (toSq + 32 == fromSq)

/-- `Board.MakeLegalMove` (`board.go` lines 319-409).  Both Go `panic`
sites (capturing a king; a move from a square with no recognized piece
kind) are `none`. -/
def MakeLegalMove (b : Board) (m : BitMove) : Option Board :=
  let fromSq := m.fromSq
  let toSq := m.toSq
  let promo := m.promo
  let oppColor := flipColor b.player
  let ptype := sqGet b.squares fromSq &&& PIECE_MASK
  let tpiece := sqGet b.squares toSq
  -- capture handling
  let step1 : Option Board :=
    if !isEmptyP tpiece then
      if contains tpiece KING then Option.none
      else
        match removePiece b toSq with
        | some b1 =>
          if toSq == CASTLING_ROOK_SHORT.getD oppColor 999 then
            some (b1.setCastleShort oppColor false)
          else if toSq == CASTLING_ROOK_LONG.getD oppColor 999 then
            some (b1.setCastleLong oppColor false)
          else some b1
        | Option.none => Option.none
    else if ptype == PAWN && toSq == b.epSquare then
      let capSq := sqAdd toSq (PAWN_PUSH_DIRS.getD oppColor 0)
      removePiece b capSq
    else some b
  match step1 with
  | Option.none => Option.none
  | some b1 =>
    -- the actual move on the board, and e.p. square reset
    let b2 := { b1 with
      squares := sqSet (sqSet b1.squares toSq (sqGet b1.squares fromSq)) fromSq EMPTY
      epSquare := OTB }
    let player := b.player
    let step2 : Option Board :=
      if ptype == PAWN then
        let b3 :=
          if createsEnPassent fromSq toSq then
            { b2 with epSquare := sqAdd fromSq (PAWN_PUSH_DIRS.getD player 0) }
          else b2
        if promo != NONE then
          addPiece (b3.setPawns player (plRemove (b3.pawns player) fromSq)) toSq (promo ||| player)
        else some (b3.setPawns player (plMove (b3.pawns player) fromSq toSq))
      else if ptype == KNIGHT then
        some (b2.setKnights player (plMove (b2.knights player) fromSq toSq))
      else if ptype == BISHOP then
        some ((b2.setBishops player (plMove (b2.bishops player) fromSq toSq)).setSliders player
          (plMove (b2.sliders player) fromSq toSq))
      else if ptype == ROOK then
        let b3 :=
          if fromSq == CASTLING_ROOK_SHORT.getD player 999 then
            b2.setCastleShort player false
          else if fromSq == CASTLING_ROOK_LONG.getD player 999 then
            b2.setCastleLong player false
          else b2
        some ((b3.setRooks player (plMove (b3.rooks player) fromSq toSq)).setSliders player
          (plMove (b3.sliders player) fromSq toSq))
      else if ptype == QUEEN then
        some ((b2.setQueens player (plMove (b2.queens player) fromSq toSq)).setSliders player
          (plMove (b2.sliders player) fromSq toSq))
      else if ptype == KING then
        let b3 := ((b2.setKings player toSq).setCastleShort player false).setCastleLong player false
        let shortCastle := fromSq == (CASTLING_DETECT_SHORT.getD player []).getD 0 999
          && toSq == (CASTLING_DETECT_SHORT.getD player []).getD 1 999
        let longCastle := fromSq == (CASTLING_DETECT_LONG.getD player []).getD 0 999
          && toSq == (CASTLING_DETECT_LONG.getD player []).getD 1 999
        if shortCastle then
          let rookFrom := CASTLING_ROOK_SHORT.getD player 999
          let rookTo := (CASTLING_PATH_SHORT.getD player []).getD 0 999
          let b4 := { b3 with
            squares := sqSet (sqSet b3.squares rookTo (ROOK ||| player)) rookFrom EMPTY }
          some ((b4.setRooks player (plMove (b4.rooks player) rookFrom rookTo)).setSliders player
            (plMove (b4.sliders player) rookFrom rookTo))
        else if longCastle then
          let rookFrom := CASTLING_ROOK_LONG.getD player 999
          let rookTo := (CASTLING_PATH_LONG.getD player []).getD 0 999
          let b4 := { b3 with
            squares := sqSet (sqSet b3.squares rookTo (ROOK ||| player)) rookFrom EMPTY }
          some ((b4.setRooks player (plMove (b4.rooks player) rookFrom rookTo)).setSliders player
            (plMove (b4.sliders player) rookFrom rookTo))
        else some b3
      else Option.none
    match step2 with
    | Option.none => Option.none
    | some bf =>
      some { bf with
        player := flipColor b.player
        moveNumber := (bf.moveNumber + 1) % 65536 }

/- ### `Perft` (`board.go` lines 1196-1220) -/

/-- The move loop of `Board.Perft`: each iteration applies a move, runs the
depth-decremented recursion `f`, and restores the byte-copy snapshot `cpy`;
a `MakeLegalMove` panic propagates as `none`. -/
def perftGo (f : Board → Option (Board × Nat)) (cpy : Board) :
    List BitMove → Board → Nat → Option (Board × Nat)
  | [], bc, nodes => some (bc, nodes)
  | mv :: rest, bc, nodes =>
    match MakeLegalMove bc mv with
    | Option.none => Option.none
    | some b2 =>
      match f b2 with
      | Option.none => Option.none
      | some bn => perftGo f cpy rest cpy (nodes + bn.2)

/-- `Board.Perft` (`board.go` lines 1196-1220): count leaf nodes `depth`
plies deep (`depth <= 0` counts 1; `depth == 1` returns the move count). -/
def Perft : Nat → Board → Option (Board × Nat)
  | 0, b => some (b, 1)
  | 1, b =>
    let bm := GenerateAllLegalMoves b []
    some (bm.1, bm.2.length)
  | depth + 2, b =>
    let cpy := b
    let bm := GenerateAllLegalMoves b []
    perftGo (fun b2 => Perft (depth + 1) b2) cpy bm.2 bm.1 0

/-- `Perft` leaf count only. -/
def perftCount (b : Board) (depth : Nat) : Option Nat :=
  (Perft depth b).map (fun bn => bn.2)

/- ### FEN parsing.
Modelled from the spec: `ParseFEN` and the `MinBoard` staging type live in a
repository file that is not under `src/`.  Per §6 a FEN has six fields
(placement ranks 8..1 with `/` separators and digit runs, side to move
`w`/`b`, castling rights `KQkq` subset or `-`, en-passant square or `-`,
half-move clock, full-move number); per §7 a wrong field count, illegal
piece character, bad castling string, bad EP square or non-numeric counter
is an error (modelled as `none`).  The counters are 16-bit values. -/

structure MinBoard where
  squares : List Nat
  color : Nat
  csB : Bool
  csW : Bool
  clB : Bool
  clW : Bool
  epSquare : Nat
  halfMoves : Nat
  moveNum : Nat
deriving DecidableEq, Repr

/-- Split a character list on a separator (empty parts are kept, as with
Go's `strings.Split`). -/
def splitOnChar (sep : Char) : List Char → List (List Char)
  | [] => [[]]
  | c :: rest =>
    let parts := splitOnChar sep rest
    if c == sep then [] :: parts
    else
      match parts with
      | p :: ps => (c :: p) :: ps
      | [] => [[c]]

/-- Map a FEN piece letter to its piece byte. -/
def pieceOfChar (c : Char) : Option Nat :=
  if c == 'p' then some BPAWN else if c == 'n' then some BKNIGHT
  else if c == 'b' then some BBISHOP else if c == 'r' then some BROOK
  else if c == 'q' then some BQUEEN else if c == 'k' then some BKING
  else if c == 'P' then some WPAWN else if c == 'N' then some WKNIGHT
  else if c == 'B' then some WBISHOP else if c == 'R' then some WROOK
  else if c == 'Q' then some WQUEEN else if c == 'K' then some WKING
  else Option.none

/-- Parse one placement rank into its 8 piece bytes. -/
def parseRank : List Char → Option (List Nat)
  | [] => some []
  | c :: rest =>
    let head : Option (List Nat) :=
      if c.isDigit then some (List.replicate (c.toNat - 48) EMPTY)
      else
        match pieceOfChar c with
        | some p => some [p]
        | Option.none => Option.none
    match head, parseRank rest with
    | some h, some t => some (h ++ t)
    | _, _ => Option.none

/-- Parse the placement field into the 64 squares of a `MinBoard`
(index 0 = a1, …, 63 = h8; FEN lists rank 8 first). -/
def parsePlacement (f : List Char) : Option (List Nat) :=
  let rows := splitOnChar '/' f
  if rows.length == 8 then
    let parsed := rows.foldr
      (fun row acc =>
        match parseRank row, acc with
        | some r, some rs => if r.length == 8 then some (r :: rs) else Option.none
        | _, _ => Option.none)
      (some [])
    match parsed with
    | some rs => some rs.reverse.flatten
    | Option.none => Option.none
  else Option.none

/-- Parse the castling-rights field. -/
def parseCastling : List Char → Option (Bool × Bool × Bool × Bool)
  | [] => Option.none
  | f =>
    if f == ['-'] then some (false, false, false, false)
    else
      f.foldl
        (fun acc c =>
          match acc with
          | some (csB, csW, clB, clW) =>
            if c == 'K' then some (csB, true, clB, clW)
            else if c == 'Q' then some (csB, csW, clB, true)
            else if c == 'k' then some (true, csW, clB, clW)
            else if c == 'q' then some (csB, csW, true, clW)
            else Option.none
          | Option.none => Option.none)
        (some (false, false, false, false))

/-- Parse the en-passant field (`-` or an algebraic square) to an 8x8 index
or `OTB`. -/
def parseEp : List Char → Option Nat
  | ['-'] => some OTB
  | [f, r] =>
    if 'a' ≤ f && f ≤ 'h' && '1' ≤ r && r ≤ '8' then
      some ((r.toNat - 49) * 8 + (f.toNat - 97))
    else Option.none
  | _ => Option.none

/-- Parse a decimal counter (16-bit, non-empty, digits only). -/
def parseCounter (f : List Char) : Option Nat :=
  if f.isEmpty then Option.none
  else
    let v := f.foldl
      (fun acc c =>
        match acc with
        | some n => if c.isDigit then some (n * 10 + (c.toNat - 48)) else Option.none
        | Option.none => Option.none)
      (some 0)
    match v with
    | some n => if n < 65536 then some n else Option.none
    | Option.none => Option.none

/-- `ParseFEN`: parse a FEN string into a `MinBoard` (`none` models the
non-nil Go error). -/
def ParseFEN (fen : String) : Option MinBoard :=
  let fields := splitOnChar ' ' fen.toList
  match fields with
  | [f0, f1, f2, f3, f4, f5] =>
    match parsePlacement f0 with
    | Option.none => Option.none
    | some sqs =>
      let colorO : Option Nat :=
        if f1 == ['w'] then some WHITE else if f1 == ['b'] then some BLACK
        else Option.none
      match colorO with
      | Option.none => Option.none
      | some color =>
        match parseCastling f2 with
        | Option.none => Option.none
        | some (csB, csW, clB, clW) =>
          match parseEp f3 with
          | Option.none => Option.none
          | some ep =>
            match parseCounter f4, parseCounter f5 with
            | some hm, some mn =>
              some { squares := sqs, color := color, csB := csB, csW := csW,
                     clB := clB, clW := clW, epSquare := ep,
                     halfMoves := hm, moveNum := mn }
            | _, _ => Option.none
  | _ => Option.none

/-- The piece-registration switch of `SetFEN`'s square loop
(`board.go` lines 200-236). -/
def setFENPiece (bacc : Board) (sq piece : Nat) : Board :=
  let b1 := { bacc with squares := sqSet bacc.squares sq piece }
  if piece == WKING then { b1 with kingW := sq }
  else if piece == BKING then { b1 with kingB := sq }
  else if piece == WQUEEN then
    { b1 with queensW := plAdd b1.queensW sq, slidersW := plAdd b1.slidersW sq }
  else if piece == BQUEEN then
    { b1 with queensB := plAdd b1.queensB sq, slidersB := plAdd b1.slidersB sq }
  else if piece == WROOK then
    { b1 with rooksW := plAdd b1.rooksW sq, slidersW := plAdd b1.slidersW sq }
  else if piece == BROOK then
    { b1 with rooksB := plAdd b1.rooksB sq, slidersB := plAdd b1.slidersB sq }
  else if piece == WBISHOP then
    { b1 with bishopsW := plAdd b1.bishopsW sq, slidersW := plAdd b1.slidersW sq }
  else if piece == BBISHOP then
    { b1 with bishopsB := plAdd b1.bishopsB sq, slidersB := plAdd b1.slidersB sq }
  else if piece == WKNIGHT then { b1 with knightsW := plAdd b1.knightsW sq }
  else if piece == BKNIGHT then { b1 with knightsB := plAdd b1.knightsB sq }
  else if piece == WPAWN then { b1 with pawnsW := plAdd b1.pawnsW sq }
  else if piece == BPAWN then { b1 with pawnsB := plAdd b1.pawnsB sq }
  else b1

/-- `Board.SetFEN` (`board.go` lines 172-242).  The `Bool` is success; on a
parse error the board is returned exactly as passed in (the Go code
returns before touching any member). -/
def SetFEN (b : Board) (fen : String) : Board × Bool :=
  match ParseFEN fen with
  | Option.none => (b, false)
  | some mb =>
    let b1 := { b with
      slidersB := [], slidersW := [], queensB := [], queensW := [],
      rooksB := [], rooksW := [], bishopsB := [], bishopsW := [],
      knightsB := [], knightsW := [], pawnsB := [], pawnsW := [],
      moveNumber := mb.moveNum, drawCounter := mb.halfMoves,
      epSquare := if mb.epSquare != OTB then Lookup0x88.getD mb.epSquare 0 else OTB,
      castleShortB := mb.csB, castleShortW := mb.csW,
      castleLongB := mb.clB, castleLongW := mb.clW,
      player := mb.color }
    let b2 := (List.range 64).foldl
      (fun bacc idx =>
        setFENPiece bacc (Lookup0x88.getD idx 0) (mb.squares.getD idx EMPTY))
      b1
    (DetectChecksAndPins b2 mb.color, true)

/-- The starting-position FEN used by `SetStartingPosition`. -/
def STARTPOS_FEN : String := "rnbqkbnr/pppppppp/8/8/8/8/PPPPPPPP/RNBQKBNR w KQkq - 0 1"

/-- The Go zero value `Board{}`. -/
def zeroBoard : Board :=
  { squares := 0, castleShortB := false, castleShortW := false,
    castleLongB := false, castleLongW := false, moveNumber := 0,
    drawCounter := 0, checkInfo := 0, epSquare := 0, player := 0,
    kingB := 0, kingW := 0, slidersB := [], slidersW := [],
    queensB := [], queensW := [], rooksB := [], rooksW := [],
    bishopsB := [], bishopsW := [], knightsB := [], knightsW := [],
    pawnsB := [], pawnsW := [] }

/-- `NewBoard` (`board.go` lines 146-159): zero board, kings off the board,
empty lists, `CheckInfo = CHECK_NONE`, then the starting position. -/
def NewBoard : Board :=
  (SetFEN { zeroBoard with kingB := OTB, kingW := OTB, checkInfo := CHECK_NONE }
    STARTPOS_FEN).1

/-- The starting position board, with every field a literal so that
theorems about it do not replay the FEN load; `startBoard_eq_NewBoard`
checks it against `NewBoard`. -/
def startBoard : Board :=
  { squares := 609681724904128511997648527848477898661063025281911572981973562109921309850227318619972688865303325004753856940878513013742968862509163179774212112861030324053931909090399081275834006544789317894038339023512320385872718398662475796856141564889849430798413586431239214347026049323397350673,
    castleShortB := true, castleShortW := true,
    castleLongB := true, castleLongW := true,
    moveNumber := 1, drawCounter := 0, checkInfo := CHECK_NONE,
    epSquare := OTB, player := WHITE, kingB := 0x74, kingW := 0x04,
    slidersB := [112, 114, 115, 117, 119], slidersW := [0, 2, 3, 5, 7],
    queensB := [115], queensW := [3],
    rooksB := [112, 119], rooksW := [0, 7],
    bishopsB := [114, 117], bishopsW := [2, 5],
    knightsB := [113, 118], knightsW := [1, 6],
    pawnsB := [96, 97, 98, 99, 100, 101, 102, 103],
    pawnsW := [16, 17, 18, 19, 20, 21, 22, 23] }

set_option maxRecDepth 100000 in
/-- The literal `startBoard` is exactly `NewBoard`. -/
theorem startBoard_eq_NewBoard : startBoard = NewBoard := by decide


/-! ## Lemmas about the packed byte array -/

theorem sqGet_lt (n i : Nat) : sqGet n i < 256 :=
  Nat.mod_lt _ (by omega)

theorem sqSet_get_self (n i v : Nat) : sqGet (sqSet n i v) i = v % 256 := by
  unfold sqGet sqSet
  have hP : 0 < 256 ^ i := Nat.pos_pow_of_pos i (by omega)
  have hB : (256 : Nat) ^ (i + 1) = 256 ^ i * 256 := by
    rw [Nat.pow_succ]
  have hr : n % 256 ^ i / 256 ^ i = 0 := Nat.div_eq_of_lt (Nat.mod_lt _ hP)
  calc (n / 256 ^ (i + 1) * 256 ^ (i + 1) + v % 256 * 256 ^ i + n % 256 ^ i) / 256 ^ i % 256
      = (n % 256 ^ i + (n / 256 ^ (i + 1) * 256 + v % 256) * 256 ^ i) / 256 ^ i % 256 := by
        ring_nf
    _ = (n % 256 ^ i / 256 ^ i + (n / 256 ^ (i + 1) * 256 + v % 256)) % 256 := by
        rw [Nat.add_mul_div_right _ _ hP]
    _ = (n / 256 ^ (i + 1) * 256 + v % 256) % 256 := by rw [hr, Nat.zero_add]
    _ = v % 256 := by omega

/-- Reading byte `j` only looks at `n % 256 ^ i` when `j < i`. -/
theorem sqGet_mod_pow (a i j : Nat) (h : j < i) :
    sqGet (a % 256 ^ i) j = sqGet a j := by
  unfold sqGet
  have hQ : 0 < 256 ^ j := Nat.pos_pow_of_pos j (by omega)
  conv_rhs => rw [← Nat.div_add_mod a (256 ^ i)]
  obtain ⟨k, hk⟩ : ∃ k, i = j + (k + 1) := ⟨i - j - 1, by omega⟩
  subst hk
  have hsplit : (256 : Nat) ^ (j + (k + 1)) = 256 ^ j * 256 ^ (k + 1) := Nat.pow_add 256 j (k + 1)
  rw [hsplit]
  have hre : 256 ^ j * 256 ^ (k + 1) * (a / (256 ^ j * 256 ^ (k + 1))) + a % (256 ^ j * 256 ^ (k + 1))
      = a % (256 ^ j * 256 ^ (k + 1)) + (256 ^ (k + 1) * (a / (256 ^ j * 256 ^ (k + 1)))) * 256 ^ j := by
    ring
  rw [hre, Nat.add_mul_div_right _ _ hQ]
  have h0 : 256 ^ (k + 1) * (a / (256 ^ j * 256 ^ (k + 1))) % 256 = 0 := by
    have : (256 : Nat) ^ (k + 1) = 256 * 256 ^ k := by rw [Nat.pow_succ]; ring
    rw [this, Nat.mul_assoc, Nat.mul_mod_right]
  omega

/-- Writing byte `i` does not change `n` below `256 ^ i`. -/
theorem sqSet_mod_pow (n i v : Nat) : sqSet n i v % 256 ^ i = n % 256 ^ i := by
  unfold sqSet
  have hP : 0 < 256 ^ i := Nat.pos_pow_of_pos i (by omega)
  have hre : n / 256 ^ (i + 1) * 256 ^ (i + 1) + v % 256 * 256 ^ i + n % 256 ^ i
      = n % 256 ^ i + (n / 256 ^ (i + 1) * 256 + v % 256) * 256 ^ i := by
    rw [Nat.pow_succ]; ring
  rw [hre, Nat.add_mul_mod_self_right]
  exact Nat.mod_eq_of_lt (Nat.mod_lt _ hP)

/-- Writing byte `i` does not change `n` above `256 ^ (i + 1)`. -/
theorem sqSet_div_pow (n i v : Nat) : sqSet n i v / 256 ^ (i + 1) = n / 256 ^ (i + 1) := by
  unfold sqSet
  have hB : 0 < 256 ^ (i + 1) := Nat.pos_pow_of_pos _ (by omega)
  have hsmall : v % 256 * 256 ^ i + n % 256 ^ i < 256 ^ (i + 1) := by
    have h1 : v % 256 ≤ 255 := by omega
    have h2 : n % 256 ^ i < 256 ^ i := Nat.mod_lt _ (Nat.pos_pow_of_pos i (by omega))
    have h3 : v % 256 * 256 ^ i ≤ 255 * 256 ^ i := Nat.mul_le_mul_right _ h1
    have h4 : (256 : Nat) ^ (i + 1) = 256 * 256 ^ i := by rw [Nat.pow_succ]; ring
    omega
  have hre : n / 256 ^ (i + 1) * 256 ^ (i + 1) + v % 256 * 256 ^ i + n % 256 ^ i
      = (v % 256 * 256 ^ i + n % 256 ^ i) + n / 256 ^ (i + 1) * 256 ^ (i + 1) := by ring
  rw [hre, Nat.add_mul_div_right _ _ hB, Nat.div_eq_of_lt hsmall, Nat.zero_add]

theorem sqSet_get_lt (n i j v : Nat) (h : j < i) :
    sqGet (sqSet n i v) j = sqGet n j := by
  rw [← sqGet_mod_pow (sqSet n i v) i j h, sqSet_mod_pow, sqGet_mod_pow _ _ _ h]

theorem sqSet_get_gt (n i j v : Nat) (h : i < j) :
    sqGet (sqSet n i v) j = sqGet n j := by
  obtain ⟨k, hk⟩ : ∃ k, j = (i + 1) + k := ⟨j - i - 1, by omega⟩
  subst hk
  unfold sqGet
  have hsplit : (256 : Nat) ^ (i + 1 + k) = 256 ^ (i + 1) * 256 ^ k := Nat.pow_add 256 (i + 1) k
  rw [hsplit, ← Nat.div_div_eq_div_mul, ← Nat.div_div_eq_div_mul, sqSet_div_pow]

/-- The two-sided version: reading any byte `j ≠ i` after writing byte `i`. -/
theorem sqSet_get_ne (n i j v : Nat) (h : j ≠ i) :
    sqGet (sqSet n i v) j = sqGet n j := by
  rcases Nat.lt_or_ge j i with hlt | hge
  · exact sqSet_get_lt n i j v hlt
  · exact sqSet_get_gt n i j v (by omega)

/-! ## Frame lemmas for the per-color field setters -/

namespace Board

@[simp] theorem setKings_squares (b : Board) (c : Nat) (v : Nat) :
    (Board.setKings b c v).squares = b.squares := by
  unfold Board.setKings; split <;> rfl

@[simp] theorem setKings_castleShortB (b : Board) (c : Nat) (v : Nat) :
    (Board.setKings b c v).castleShortB = b.castleShortB := by
  unfold Board.setKings; split <;> rfl

@[simp] theorem setKings_castleShortW (b : Board) (c : Nat) (v : Nat) :
    (Board.setKings b c v).castleShortW = b.castleShortW := by
  unfold Board.setKings; split <;> rfl

@[simp] theorem setKings_castleLongB (b : Board) (c : Nat) (v : Nat) :
    (Board.setKings b c v).castleLongB = b.castleLongB := by
  unfold Board.setKings; split <;> rfl

@[simp] theorem setKings_castleLongW (b : Board) (c : Nat) (v : Nat) :
    (Board.setKings b c v).castleLongW = b.castleLongW := by
  unfold Board.setKings; split <;> rfl

@[simp] theorem setKings_moveNumber (b : Board) (c : Nat) (v : Nat) :
    (Board.setKings b c v).moveNumber = b.moveNumber := by
  unfold Board.setKings; split <;> rfl

@[simp] theorem setKings_drawCounter (b : Board) (c : Nat) (v : Nat) :
    (Board.setKings b c v).drawCounter = b.drawCounter := by
  unfold Board.setKings; split <;> rfl

@[simp] theorem setKings_checkInfo (b : Board) (c : Nat) (v : Nat) :
    (Board.setKings b c v).checkInfo = b.checkInfo := by
  unfold Board.setKings; split <;> rfl

@[simp] theorem setKings_epSquare (b : Board) (c : Nat) (v : Nat) :
    (Board.setKings b c v).epSquare = b.epSquare := by
  unfold Board.setKings; split <;> rfl

@[simp] theorem setKings_player (b : Board) (c : Nat) (v : Nat) :
    (Board.setKings b c v).player = b.player := by
  unfold Board.setKings; split <;> rfl

@[simp] theorem setKings_kingB (b : Board) (c : Nat) (v : Nat) :
    (Board.setKings b c v).kingB = (if c == WHITE then b.kingB else v) := by
  unfold Board.setKings; split <;> simp_all

@[simp] theorem setKings_kingW (b : Board) (c : Nat) (v : Nat) :
    (Board.setKings b c v).kingW = (if c == WHITE then v else b.kingW) := by
  unfold Board.setKings; split <;> simp_all

@[simp] theorem setKings_slidersB (b : Board) (c : Nat) (v : Nat) :
    (Board.setKings b c v).slidersB = b.slidersB := by
  unfold Board.setKings; split <;> rfl

@[simp] theorem setKings_slidersW (b : Board) (c : Nat) (v : Nat) :
    (Board.setKings b c v).slidersW = b.slidersW := by
  unfold Board.setKings; split <;> rfl

@[simp] theorem setKings_queensB (b : Board) (c : Nat) (v : Nat) :
    (Board.setKings b c v).queensB = b.queensB := by
  unfold Board.setKings; split <;> rfl

@[simp] theorem setKings_queensW (b : Board) (c : Nat) (v : Nat) :
    (Board.setKings b c v).queensW = b.queensW := by
  unfold Board.setKings; split <;> rfl

@[simp] theorem setKings_rooksB (b : Board) (c : Nat) (v : Nat) :
    (Board.setKings b c v).rooksB = b.rooksB := by
  unfold Board.setKings; split <;> rfl

@[simp] theorem setKings_rooksW (b : Board) (c : Nat) (v : Nat) :
    (Board.setKings b c v).rooksW = b.rooksW := by
  unfold Board.setKings; split <;> rfl

@[simp] theorem setKings_bishopsB (b : Board) (c : Nat) (v : Nat) :
    (Board.setKings b c v).bishopsB = b.bishopsB := by
  unfold Board.setKings; split <;> rfl

@[simp] theorem setKings_bishopsW (b : Board) (c : Nat) (v : Nat) :
    (Board.setKings b c v).bishopsW = b.bishopsW := by
  unfold Board.setKings; split <;> rfl

@[simp] theorem setKings_knightsB (b : Board) (c : Nat) (v : Nat) :
    (Board.setKings b c v).knightsB = b.knightsB := by
  unfold Board.setKings; split <;> rfl

@[simp] theorem setKings_knightsW (b : Board) (c : Nat) (v : Nat) :
    (Board.setKings b c v).knightsW = b.knightsW := by
  unfold Board.setKings; split <;> rfl

@[simp] theorem setKings_pawnsB (b : Board) (c : Nat) (v : Nat) :
    (Board.setKings b c v).pawnsB = b.pawnsB := by
  unfold Board.setKings; split <;> rfl

@[simp] theorem setKings_pawnsW (b : Board) (c : Nat) (v : Nat) :
    (Board.setKings b c v).pawnsW = b.pawnsW := by
  unfold Board.setKings; split <;> rfl

@[simp] theorem setSliders_squares (b : Board) (c : Nat) (l : List Nat) :
    (Board.setSliders b c l).squares = b.squares := by
  unfold Board.setSliders; split <;> rfl

@[simp] theorem setSliders_castleShortB (b : Board) (c : Nat) (l : List Nat) :
    (Board.setSliders b c l).castleShortB = b.castleShortB := by
  unfold Board.setSliders; split <;> rfl

@[simp] theorem setSliders_castleShortW (b : Board) (c : Nat) (l : List Nat) :
    (Board.setSliders b c l).castleShortW = b.castleShortW := by
  unfold Board.setSliders; split <;> rfl

@[simp] theorem setSliders_castleLongB (b : Board) (c : Nat) (l : List Nat) :
    (Board.setSliders b c l).castleLongB = b.castleLongB := by
  unfold Board.setSliders; split <;> rfl

@[simp] theorem setSliders_castleLongW (b : Board) (c : Nat) (l : List Nat) :
    (Board.setSliders b c l).castleLongW = b.castleLongW := by
  unfold Board.setSliders; split <;> rfl

@[simp] theorem setSliders_moveNumber (b : Board) (c : Nat) (l : List Nat) :
    (Board.setSliders b c l).moveNumber = b.moveNumber := by
  unfold Board.setSliders; split <;> rfl

@[simp] theorem setSliders_drawCounter (b : Board) (c : Nat) (l : List Nat) :
    (Board.setSliders b c l).drawCounter = b.drawCounter := by
  unfold Board.setSliders; split <;> rfl

@[simp] theorem setSliders_checkInfo (b : Board) (c : Nat) (l : List Nat) :
    (Board.setSliders b c l).checkInfo = b.checkInfo := by
  unfold Board.setSliders; split <;> rfl

@[simp] theorem setSliders_epSquare (b : Board) (c : Nat) (l : List Nat) :
    (Board.setSliders b c l).epSquare = b.epSquare := by
  unfold Board.setSliders; split <;> rfl

@[simp] theorem setSliders_player (b : Board) (c : Nat) (l : List Nat) :
    (Board.setSliders b c l).player = b.player := by
  unfold Board.setSliders; split <;> rfl

@[simp] theorem setSliders_kingB (b : Board) (c : Nat) (l : List Nat) :
    (Board.setSliders b c l).kingB = b.kingB := by
  unfold Board.setSliders; split <;> rfl

@[simp] theorem setSliders_kingW (b : Board) (c : Nat) (l : List Nat) :
    (Board.setSliders b c l).kingW = b.kingW := by
  unfold Board.setSliders; split <;> rfl

@[simp] theorem setSliders_slidersB (b : Board) (c : Nat) (l : List Nat) :
    (Board.setSliders b c l).slidersB = (if c == WHITE then b.slidersB else l) := by
  unfold Board.setSliders; split <;> simp_all

@[simp] theorem setSliders_slidersW (b : Board) (c : Nat) (l : List Nat) :
    (Board.setSliders b c l).slidersW = (if c == WHITE then l else b.slidersW) := by
  unfold Board.setSliders; split <;> simp_all

@[simp] theorem setSliders_queensB (b : Board) (c : Nat) (l : List Nat) :
    (Board.setSliders b c l).queensB = b.queensB := by
  unfold Board.setSliders; split <;> rfl

@[simp] theorem setSliders_queensW (b : Board) (c : Nat) (l : List Nat) :
    (Board.setSliders b c l).queensW = b.queensW := by
  unfold Board.setSliders; split <;> rfl

@[simp] theorem setSliders_rooksB (b : Board) (c : Nat) (l : List Nat) :
    (Board.setSliders b c l).rooksB = b.rooksB := by
  unfold Board.setSliders; split <;> rfl

@[simp] theorem setSliders_rooksW (b : Board) (c : Nat) (l : List Nat) :
    (Board.setSliders b c l).rooksW = b.rooksW := by
  unfold Board.setSliders; split <;> rfl

@[simp] theorem setSliders_bishopsB (b : Board) (c : Nat) (l : List Nat) :
    (Board.setSliders b c l).bishopsB = b.bishopsB := by
  unfold Board.setSliders; split <;> rfl

@[simp] theorem setSliders_bishopsW (b : Board) (c : Nat) (l : List Nat) :
    (Board.setSliders b c l).bishopsW = b.bishopsW := by
  unfold Board.setSliders; split <;> rfl

@[simp] theorem setSliders_knightsB (b : Board) (c : Nat) (l : List Nat) :
    (Board.setSliders b c l).knightsB = b.knightsB := by
  unfold Board.setSliders; split <;> rfl

@[simp] theorem setSliders_knightsW (b : Board) (c : Nat) (l : List Nat) :
    (Board.setSliders b c l).knightsW = b.knightsW := by
  unfold Board.setSliders; split <;> rfl

@[simp] theorem setSliders_pawnsB (b : Board) (c : Nat) (l : List Nat) :
    (Board.setSliders b c l).pawnsB = b.pawnsB := by
  unfold Board.setSliders; split <;> rfl

@[simp] theorem setSliders_pawnsW (b : Board) (c : Nat) (l : List Nat) :
    (Board.setSliders b c l).pawnsW = b.pawnsW := by
  unfold Board.setSliders; split <;> rfl

@[simp] theorem setQueens_squares (b : Board) (c : Nat) (l : List Nat) :
    (Board.setQueens b c l).squares = b.squares := by
  unfold Board.setQueens; split <;> rfl

@[simp] theorem setQueens_castleShortB (b : Board) (c : Nat) (l : List Nat) :
    (Board.setQueens b c l).castleShortB = b.castleShortB := by
  unfold Board.setQueens; split <;> rfl

@[simp] theorem setQueens_castleShortW (b : Board) (c : Nat) (l : List Nat) :
    (Board.setQueens b c l).castleShortW = b.castleShortW := by
  unfold Board.setQueens; split <;> rfl

@[simp] theorem setQueens_castleLongB (b : Board) (c : Nat) (l : List Nat) :
    (Board.setQueens b c l).castleLongB = b.castleLongB := by
  unfold Board.setQueens; split <;> rfl

@[simp] theorem setQueens_castleLongW (b : Board) (c : Nat) (l : List Nat) :
    (Board.setQueens b c l).castleLongW = b.castleLongW := by
  unfold Board.setQueens; split <;> rfl

@[simp] theorem setQueens_moveNumber (b : Board) (c : Nat) (l : List Nat) :
    (Board.setQueens b c l).moveNumber = b.moveNumber := by
  unfold Board.setQueens; split <;> rfl

@[simp] theorem setQueens_drawCounter (b : Board) (c : Nat) (l : List Nat) :
    (Board.setQueens b c l).drawCounter = b.drawCounter := by
  unfold Board.setQueens; split <;> rfl

@[simp] theorem setQueens_checkInfo (b : Board) (c : Nat) (l : List Nat) :
    (Board.setQueens b c l).checkInfo = b.checkInfo := by
  unfold Board.setQueens; split <;> rfl

@[simp] theorem setQueens_epSquare (b : Board) (c : Nat) (l : List Nat) :
    (Board.setQueens b c l).epSquare = b.epSquare := by
  unfold Board.setQueens; split <;> rfl

@[simp] theorem setQueens_player (b : Board) (c : Nat) (l : List Nat) :
    (Board.setQueens b c l).player = b.player := by
  unfold Board.setQueens; split <;> rfl

@[simp] theorem setQueens_kingB (b : Board) (c : Nat) (l : List Nat) :
    (Board.setQueens b c l).kingB = b.kingB := by
  unfold Board.setQueens; split <;> rfl

@[simp] theorem setQueens_kingW (b : Board) (c : Nat) (l : List Nat) :
    (Board.setQueens b c l).kingW = b.kingW := by
  unfold Board.setQueens; split <;> rfl

@[simp] theorem setQueens_slidersB (b : Board) (c : Nat) (l : List Nat) :
    (Board.setQueens b c l).slidersB = b.slidersB := by
  unfold Board.setQueens; split <;> rfl

@[simp] theorem setQueens_slidersW (b : Board) (c : Nat) (l : List Nat) :
    (Board.setQueens b c l).slidersW = b.slidersW := by
  unfold Board.setQueens; split <;> rfl

@[simp] theorem setQueens_queensB (b : Board) (c : Nat) (l : List Nat) :
    (Board.setQueens b c l).queensB = (if c == WHITE then b.queensB else l) := by
  unfold Board.setQueens; split <;> simp_all

@[simp] theorem setQueens_queensW (b : Board) (c : Nat) (l : List Nat) :
    (Board.setQueens b c l).queensW = (if c == WHITE then l else b.queensW) := by
  unfold Board.setQueens; split <;> simp_all

@[simp] theorem setQueens_rooksB (b : Board) (c : Nat) (l : List Nat) :
    (Board.setQueens b c l).rooksB = b.rooksB := by
  unfold Board.setQueens; split <;> rfl

@[simp] theorem setQueens_rooksW (b : Board) (c : Nat) (l : List Nat) :
    (Board.setQueens b c l).rooksW = b.rooksW := by
  unfold Board.setQueens; split <;> rfl

@[simp] theorem setQueens_bishopsB (b : Board) (c : Nat) (l : List Nat) :
    (Board.setQueens b c l).bishopsB = b.bishopsB := by
  unfold Board.setQueens; split <;> rfl

@[simp] theorem setQueens_bishopsW (b : Board) (c : Nat) (l : List Nat) :
    (Board.setQueens b c l).bishopsW = b.bishopsW := by
  unfold Board.setQueens; split <;> rfl

@[simp] theorem setQueens_knightsB (b : Board) (c : Nat) (l : List Nat) :
    (Board.setQueens b c l).knightsB = b.knightsB := by
  unfold Board.setQueens; split <;> rfl

@[simp] theorem setQueens_knightsW (b : Board) (c : Nat) (l : List Nat) :
    (Board.setQueens b c l).knightsW = b.knightsW := by
  unfold Board.setQueens; split <;> rfl

@[simp] theorem setQueens_pawnsB (b : Board) (c : Nat) (l : List Nat) :
    (Board.setQueens b c l).pawnsB = b.pawnsB := by
  unfold Board.setQueens; split <;> rfl

@[simp] theorem setQueens_pawnsW (b : Board) (c : Nat) (l : List Nat) :
    (Board.setQueens b c l).pawnsW = b.pawnsW := by
  unfold Board.setQueens; split <;> rfl

@[simp] theorem setRooks_squares (b : Board) (c : Nat) (l : List Nat) :
    (Board.setRooks b c l).squares = b.squares := by
  unfold Board.setRooks; split <;> rfl

@[simp] theorem setRooks_castleShortB (b : Board) (c : Nat) (l : List Nat) :
    (Board.setRooks b c l).castleShortB = b.castleShortB := by
  unfold Board.setRooks; split <;> rfl

@[simp] theorem setRooks_castleShortW (b : Board) (c : Nat) (l : List Nat) :
    (Board.setRooks b c l).castleShortW = b.castleShortW := by
  unfold Board.setRooks; split <;> rfl

@[simp] theorem setRooks_castleLongB (b : Board) (c : Nat) (l : List Nat) :
    (Board.setRooks b c l).castleLongB = b.castleLongB := by
  unfold Board.setRooks; split <;> rfl

@[simp] theorem setRooks_castleLongW (b : Board) (c : Nat) (l : List Nat) :
    (Board.setRooks b c l).castleLongW = b.castleLongW := by
  unfold Board.setRooks; split <;> rfl

@[simp] theorem setRooks_moveNumber (b : Board) (c : Nat) (l : List Nat) :
    (Board.setRooks b c l).moveNumber = b.moveNumber := by
  unfold Board.setRooks; split <;> rfl

@[simp] theorem setRooks_drawCounter (b : Board) (c : Nat) (l : List Nat) :
    (Board.setRooks b c l).drawCounter = b.drawCounter := by
  unfold Board.setRooks; split <;> rfl

@[simp] theorem setRooks_checkInfo (b : Board) (c : Nat) (l : List Nat) :
    (Board.setRooks b c l).checkInfo = b.checkInfo := by
  unfold Board.setRooks; split <;> rfl

@[simp] theorem setRooks_epSquare (b : Board) (c : Nat) (l : List Nat) :
    (Board.setRooks b c l).epSquare = b.epSquare := by
  unfold Board.setRooks; split <;> rfl

@[simp] theorem setRooks_player (b : Board) (c : Nat) (l : List Nat) :
    (Board.setRooks b c l).player = b.player := by
  unfold Board.setRooks; split <;> rfl

@[simp] theorem setRooks_kingB (b : Board) (c : Nat) (l : List Nat) :
    (Board.setRooks b c l).kingB = b.kingB := by
  unfold Board.setRooks; split <;> rfl

@[simp] theorem setRooks_kingW (b : Board) (c : Nat) (l : List Nat) :
    (Board.setRooks b c l).kingW = b.kingW := by
  unfold Board.setRooks; split <;> rfl

@[simp] theorem setRooks_slidersB (b : Board) (c : Nat) (l : List Nat) :
    (Board.setRooks b c l).slidersB = b.slidersB := by
  unfold Board.setRooks; split <;> rfl

@[simp] theorem setRooks_slidersW (b : Board) (c : Nat) (l : List Nat) :
    (Board.setRooks b c l).slidersW = b.slidersW := by
  unfold Board.setRooks; split <;> rfl

@[simp] theorem setRooks_queensB (b : Board) (c : Nat) (l : List Nat) :
    (Board.setRooks b c l).queensB = b.queensB := by
  unfold Board.setRooks; split <;> rfl

@[simp] theorem setRooks_queensW (b : Board) (c : Nat) (l : List Nat) :
    (Board.setRooks b c l).queensW = b.queensW := by
  unfold Board.setRooks; split <;> rfl

@[simp] theorem setRooks_rooksB (b : Board) (c : Nat) (l : List Nat) :
    (Board.setRooks b c l).rooksB = (if c == WHITE then b.rooksB else l) := by
  unfold Board.setRooks; split <;> simp_all

@[simp] theorem setRooks_rooksW (b : Board) (c : Nat) (l : List Nat) :
    (Board.setRooks b c l).rooksW = (if c == WHITE then l else b.rooksW) := by
  unfold Board.setRooks; split <;> simp_all

@[simp] theorem setRooks_bishopsB (b : Board) (c : Nat) (l : List Nat) :
    (Board.setRooks b c l).bishopsB = b.bishopsB := by
  unfold Board.setRooks; split <;> rfl

@[simp] theorem setRooks_bishopsW (b : Board) (c : Nat) (l : List Nat) :
    (Board.setRooks b c l).bishopsW = b.bishopsW := by
  unfold Board.setRooks; split <;> rfl

@[simp] theorem setRooks_knightsB (b : Board) (c : Nat) (l : List Nat) :
    (Board.setRooks b c l).knightsB = b.knightsB := by
  unfold Board.setRooks; split <;> rfl

@[simp] theorem setRooks_knightsW (b : Board) (c : Nat) (l : List Nat) :
    (Board.setRooks b c l).knightsW = b.knightsW := by
  unfold Board.setRooks; split <;> rfl

@[simp] theorem setRooks_pawnsB (b : Board) (c : Nat) (l : List Nat) :
    (Board.setRooks b c l).pawnsB = b.pawnsB := by
  unfold Board.setRooks; split <;> rfl

@[simp] theorem setRooks_pawnsW (b : Board) (c : Nat) (l : List Nat) :
    (Board.setRooks b c l).pawnsW = b.pawnsW := by
  unfold Board.setRooks; split <;> rfl

@[simp] theorem setBishops_squares (b : Board) (c : Nat) (l : List Nat) :
    (Board.setBishops b c l).squares = b.squares := by
  unfold Board.setBishops; split <;> rfl

@[simp] theorem setBishops_castleShortB (b : Board) (c : Nat) (l : List Nat) :
    (Board.setBishops b c l).castleShortB = b.castleShortB := by
  unfold Board.setBishops; split <;> rfl

@[simp] theorem setBishops_castleShortW (b : Board) (c : Nat) (l : List Nat) :
    (Board.setBishops b c l).castleShortW = b.castleShortW := by
  unfold Board.setBishops; split <;> rfl

@[simp] theorem setBishops_castleLongB (b : Board) (c : Nat) (l : List Nat) :
    (Board.setBishops b c l).castleLongB = b.castleLongB := by
  unfold Board.setBishops; split <;> rfl

@[simp] theorem setBishops_castleLongW (b : Board) (c : Nat) (l : List Nat) :
    (Board.setBishops b c l).castleLongW = b.castleLongW := by
  unfold Board.setBishops; split <;> rfl

@[simp] theorem setBishops_moveNumber (b : Board) (c : Nat) (l : List Nat) :
    (Board.setBishops b c l).moveNumber = b.moveNumber := by
  unfold Board.setBishops; split <;> rfl

@[simp] theorem setBishops_drawCounter (b : Board) (c : Nat) (l : List Nat) :
    (Board.setBishops b c l).drawCounter = b.drawCounter := by
  unfold Board.setBishops; split <;> rfl

@[simp] theorem setBishops_checkInfo (b : Board) (c : Nat) (l : List Nat) :
    (Board.setBishops b c l).checkInfo = b.checkInfo := by
  unfold Board.setBishops; split <;> rfl

@[simp] theorem setBishops_epSquare (b : Board) (c : Nat) (l : List Nat) :
    (Board.setBishops b c l).epSquare = b.epSquare := by
  unfold Board.setBishops; split <;> rfl

@[simp] theorem setBishops_player (b : Board) (c : Nat) (l : List Nat) :
    (Board.setBishops b c l).player = b.player := by
  unfold Board.setBishops; split <;> rfl

@[simp] theorem setBishops_kingB (b : Board) (c : Nat) (l : List Nat) :
    (Board.setBishops b c l).kingB = b.kingB := by
  unfold Board.setBishops; split <;> rfl

@[simp] theorem setBishops_kingW (b : Board) (c : Nat) (l : List Nat) :
    (Board.setBishops b c l).kingW = b.kingW := by
  unfold Board.setBishops; split <;> rfl

@[simp] theorem setBishops_slidersB (b : Board) (c : Nat) (l : List Nat) :
    (Board.setBishops b c l).slidersB = b.slidersB := by
  unfold Board.setBishops; split <;> rfl

@[simp] theorem setBishops_slidersW (b : Board) (c : Nat) (l : List Nat) :
    (Board.setBishops b c l).slidersW = b.slidersW := by
  unfold Board.setBishops; split <;> rfl

@[simp] theorem setBishops_queensB (b : Board) (c : Nat) (l : List Nat) :
    (Board.setBishops b c l).queensB = b.queensB := by
  unfold Board.setBishops; split <;> rfl

@[simp] theorem setBishops_queensW (b : Board) (c : Nat) (l : List Nat) :
    (Board.setBishops b c l).queensW = b.queensW := by
  unfold Board.setBishops; split <;> rfl

@[simp] theorem setBishops_rooksB (b : Board) (c : Nat) (l : List Nat) :
    (Board.setBishops b c l).rooksB = b.rooksB := by
  unfold Board.setBishops; split <;> rfl

@[simp] theorem setBishops_rooksW (b : Board) (c : Nat) (l : List Nat) :
    (Board.setBishops b c l).rooksW = b.rooksW := by
  unfold Board.setBishops; split <;> rfl

@[simp] theorem setBishops_bishopsB (b : Board) (c : Nat) (l : List Nat) :
    (Board.setBishops b c l).bishopsB = (if c == WHITE then b.bishopsB else l) := by
  unfold Board.setBishops; split <;> simp_all

@[simp] theorem setBishops_bishopsW (b : Board) (c : Nat) (l : List Nat) :
    (Board.setBishops b c l).bishopsW = (if c == WHITE then l else b.bishopsW) := by
  unfold Board.setBishops; split <;> simp_all

@[simp] theorem setBishops_knightsB (b : Board) (c : Nat) (l : List Nat) :
    (Board.setBishops b c l).knightsB = b.knightsB := by
  unfold Board.setBishops; split <;> rfl

@[simp] theorem setBishops_knightsW (b : Board) (c : Nat) (l : List Nat) :
    (Board.setBishops b c l).knightsW = b.knightsW := by
  unfold Board.setBishops; split <;> rfl

@[simp] theorem setBishops_pawnsB (b : Board) (c : Nat) (l : List Nat) :
    (Board.setBishops b c l).pawnsB = b.pawnsB := by
  unfold Board.setBishops; split <;> rfl

@[simp] theorem setBishops_pawnsW (b : Board) (c : Nat) (l : List Nat) :
    (Board.setBishops b c l).pawnsW = b.pawnsW := by
  unfold Board.setBishops; split <;> rfl

@[simp] theorem setKnights_squares (b : Board) (c : Nat) (l : List Nat) :
    (Board.setKnights b c l).squares = b.squares := by
  unfold Board.setKnights; split <;> rfl

@[simp] theorem setKnights_castleShortB (b : Board) (c : Nat) (l : List Nat) :
    (Board.setKnights b c l).castleShortB = b.castleShortB := by
  unfold Board.setKnights; split <;> rfl

@[simp] theorem setKnights_castleShortW (b : Board) (c : Nat) (l : List Nat) :
    (Board.setKnights b c l).castleShortW = b.castleShortW := by
  unfold Board.setKnights; split <;> rfl

@[simp] theorem setKnights_castleLongB (b : Board) (c : Nat) (l : List Nat) :
    (Board.setKnights b c l).castleLongB = b.castleLongB := by
  unfold Board.setKnights; split <;> rfl

@[simp] theorem setKnights_castleLongW (b : Board) (c : Nat) (l : List Nat) :
    (Board.setKnights b c l).castleLongW = b.castleLongW := by
  unfold Board.setKnights; split <;> rfl

@[simp] theorem setKnights_moveNumber (b : Board) (c : Nat) (l : List Nat) :
    (Board.setKnights b c l).moveNumber = b.moveNumber := by
  unfold Board.setKnights; split <;> rfl

@[simp] theorem setKnights_drawCounter (b : Board) (c : Nat) (l : List Nat) :
    (Board.setKnights b c l).drawCounter = b.drawCounter := by
  unfold Board.setKnights; split <;> rfl

@[simp] theorem setKnights_checkInfo (b : Board) (c : Nat) (l : List Nat) :
    (Board.setKnights b c l).checkInfo = b.checkInfo := by
  unfold Board.setKnights; split <;> rfl

@[simp] theorem setKnights_epSquare (b : Board) (c : Nat) (l : List Nat) :
    (Board.setKnights b c l).epSquare = b.epSquare := by
  unfold Board.setKnights; split <;> rfl

@[simp] theorem setKnights_player (b : Board) (c : Nat) (l : List Nat) :
    (Board.setKnights b c l).player = b.player := by
  unfold Board.setKnights; split <;> rfl

@[simp] theorem setKnights_kingB (b : Board) (c : Nat) (l : List Nat) :
    (Board.setKnights b c l).kingB = b.kingB := by
  unfold Board.setKnights; split <;> rfl

@[simp] theorem setKnights_kingW (b : Board) (c : Nat) (l : List Nat) :
    (Board.setKnights b c l).kingW = b.kingW := by
  unfold Board.setKnights; split <;> rfl

@[simp] theorem setKnights_slidersB (b : Board) (c : Nat) (l : List Nat) :
    (Board.setKnights b c l).slidersB = b.slidersB := by
  unfold Board.setKnights; split <;> rfl

@[simp] theorem setKnights_slidersW (b : Board) (c : Nat) (l : List Nat) :
    (Board.setKnights b c l).slidersW = b.slidersW := by
  unfold Board.setKnights; split <;> rfl

@[simp] theorem setKnights_queensB (b : Board) (c : Nat) (l : List Nat) :
    (Board.setKnights b c l).queensB = b.queensB := by
  unfold Board.setKnights; split <;> rfl

@[simp] theorem setKnights_queensW (b : Board) (c : Nat) (l : List Nat) :
    (Board.setKnights b c l).queensW = b.queensW := by
  unfold Board.setKnights; split <;> rfl

@[simp] theorem setKnights_rooksB (b : Board) (c : Nat) (l : List Nat) :
    (Board.setKnights b c l).rooksB = b.rooksB := by
  unfold Board.setKnights; split <;> rfl

@[simp] theorem setKnights_rooksW (b : Board) (c : Nat) (l : List Nat) :
    (Board.setKnights b c l).rooksW = b.rooksW := by
  unfold Board.setKnights; split <;> rfl

@[simp] theorem setKnights_bishopsB (b : Board) (c : Nat) (l : List Nat) :
    (Board.setKnights b c l).bishopsB = b.bishopsB := by
  unfold Board.setKnights; split <;> rfl

@[simp] theorem setKnights_bishopsW (b : Board) (c : Nat) (l : List Nat) :
    (Board.setKnights b c l).bishopsW = b.bishopsW := by
  unfold Board.setKnights; split <;> rfl

@[simp] theorem setKnights_knightsB (b : Board) (c : Nat) (l : List Nat) :
    (Board.setKnights b c l).knightsB = (if c == WHITE then b.knightsB else l) := by
  unfold Board.setKnights; split <;> simp_all

@[simp] theorem setKnights_knightsW (b : Board) (c : Nat) (l : List Nat) :
    (Board.setKnights b c l).knightsW = (if c == WHITE then l else b.knightsW) := by
  unfold Board.setKnights; split <;> simp_all

@[simp] theorem setKnights_pawnsB (b : Board) (c : Nat) (l : List Nat) :
    (Board.setKnights b c l).pawnsB = b.pawnsB := by
  unfold Board.setKnights; split <;> rfl

@[simp] theorem setKnights_pawnsW (b : Board) (c : Nat) (l : List Nat) :
    (Board.setKnights b c l).pawnsW = b.pawnsW := by
  unfold Board.setKnights; split <;> rfl

@[simp] theorem setPawns_squares (b : Board) (c : Nat) (l : List Nat) :
    (Board.setPawns b c l).squares = b.squares := by
  unfold Board.setPawns; split <;> rfl

@[simp] theorem setPawns_castleShortB (b : Board) (c : Nat) (l : List Nat) :
    (Board.setPawns b c l).castleShortB = b.castleShortB := by
  unfold Board.setPawns; split <;> rfl

@[simp] theorem setPawns_castleShortW (b : Board) (c : Nat) (l : List Nat) :
    (Board.setPawns b c l).castleShortW = b.castleShortW := by
  unfold Board.setPawns; split <;> rfl

@[simp] theorem setPawns_castleLongB (b : Board) (c : Nat) (l : List Nat) :
    (Board.setPawns b c l).castleLongB = b.castleLongB := by
  unfold Board.setPawns; split <;> rfl

@[simp] theorem setPawns_castleLongW (b : Board) (c : Nat) (l : List Nat) :
    (Board.setPawns b c l).castleLongW = b.castleLongW := by
  unfold Board.setPawns; split <;> rfl

@[simp] theorem setPawns_moveNumber (b : Board) (c : Nat) (l : List Nat) :
    (Board.setPawns b c l).moveNumber = b.moveNumber := by
  unfold Board.setPawns; split <;> rfl

@[simp] theorem setPawns_drawCounter (b : Board) (c : Nat) (l : List Nat) :
    (Board.setPawns b c l).drawCounter = b.drawCounter := by
  unfold Board.setPawns; split <;> rfl

@[simp] theorem setPawns_checkInfo (b : Board) (c : Nat) (l : List Nat) :
    (Board.setPawns b c l).checkInfo = b.checkInfo := by
  unfold Board.setPawns; split <;> rfl

@[simp] theorem setPawns_epSquare (b : Board) (c : Nat) (l : List Nat) :
    (Board.setPawns b c l).epSquare = b.epSquare := by
  unfold Board.setPawns; split <;> rfl

@[simp] theorem setPawns_player (b : Board) (c : Nat) (l : List Nat) :
    (Board.setPawns b c l).player = b.player := by
  unfold Board.setPawns; split <;> rfl

@[simp] theorem setPawns_kingB (b : Board) (c : Nat) (l : List Nat) :
    (Board.setPawns b c l).kingB = b.kingB := by
  unfold Board.setPawns; split <;> rfl

@[simp] theorem setPawns_kingW (b : Board) (c : Nat) (l : List Nat) :
    (Board.setPawns b c l).kingW = b.kingW := by
  unfold Board.setPawns; split <;> rfl

@[simp] theorem setPawns_slidersB (b : Board) (c : Nat) (l : List Nat) :
    (Board.setPawns b c l).slidersB = b.slidersB := by
  unfold Board.setPawns; split <;> rfl

@[simp] theorem setPawns_slidersW (b : Board) (c : Nat) (l : List Nat) :
    (Board.setPawns b c l).slidersW = b.slidersW := by
  unfold Board.setPawns; split <;> rfl

@[simp] theorem setPawns_queensB (b : Board) (c : Nat) (l : List Nat) :
    (Board.setPawns b c l).queensB = b.queensB := by
  unfold Board.setPawns; split <;> rfl

@[simp] theorem setPawns_queensW (b : Board) (c : Nat) (l : List Nat) :
    (Board.setPawns b c l).queensW = b.queensW := by
  unfold Board.setPawns; split <;> rfl

@[simp] theorem setPawns_rooksB (b : Board) (c : Nat) (l : List Nat) :
    (Board.setPawns b c l).rooksB = b.rooksB := by
  unfold Board.setPawns; split <;> rfl

@[simp] theorem setPawns_rooksW (b : Board) (c : Nat) (l : List Nat) :
    (Board.setPawns b c l).rooksW = b.rooksW := by
  unfold Board.setPawns; split <;> rfl

@[simp] theorem setPawns_bishopsB (b : Board) (c : Nat) (l : List Nat) :
    (Board.setPawns b c l).bishopsB = b.bishopsB := by
  unfold Board.setPawns; split <;> rfl

@[simp] theorem setPawns_bishopsW (b : Board) (c : Nat) (l : List Nat) :
    (Board.setPawns b c l).bishopsW = b.bishopsW := by
  unfold Board.setPawns; split <;> rfl

@[simp] theorem setPawns_knightsB (b : Board) (c : Nat) (l : List Nat) :
    (Board.setPawns b c l).knightsB = b.knightsB := by
  unfold Board.setPawns; split <;> rfl

@[simp] theorem setPawns_knightsW (b : Board) (c : Nat) (l : List Nat) :
    (Board.setPawns b c l).knightsW = b.knightsW := by
  unfold Board.setPawns; split <;> rfl

@[simp] theorem setPawns_pawnsB (b : Board) (c : Nat) (l : List Nat) :
    (Board.setPawns b c l).pawnsB = (if c == WHITE then b.pawnsB else l) := by
  unfold Board.setPawns; split <;> simp_all

@[simp] theorem setPawns_pawnsW (b : Board) (c : Nat) (l : List Nat) :
    (Board.setPawns b c l).pawnsW = (if c == WHITE then l else b.pawnsW) := by
  unfold Board.setPawns; split <;> simp_all

@[simp] theorem setCastleShort_squares (b : Board) (c : Nat) (v : Bool) :
    (Board.setCastleShort b c v).squares = b.squares := by
  unfold Board.setCastleShort; split <;> rfl

@[simp] theorem setCastleShort_castleShortB (b : Board) (c : Nat) (v : Bool) :
    (Board.setCastleShort b c v).castleShortB = (if c == WHITE then b.castleShortB else v) := by
  unfold Board.setCastleShort; split <;> simp_all

@[simp] theorem setCastleShort_castleShortW (b : Board) (c : Nat) (v : Bool) :
    (Board.setCastleShort b c v).castleShortW = (if c == WHITE then v else b.castleShortW) := by
  unfold Board.setCastleShort; split <;> simp_all

@[simp] theorem setCastleShort_castleLongB (b : Board) (c : Nat) (v : Bool) :
    (Board.setCastleShort b c v).castleLongB = b.castleLongB := by
  unfold Board.setCastleShort; split <;> rfl

@[simp] theorem setCastleShort_castleLongW (b : Board) (c : Nat) (v : Bool) :
    (Board.setCastleShort b c v).castleLongW = b.castleLongW := by
  unfold Board.setCastleShort; split <;> rfl

@[simp] theorem setCastleShort_moveNumber (b : Board) (c : Nat) (v : Bool) :
    (Board.setCastleShort b c v).moveNumber = b.moveNumber := by
  unfold Board.setCastleShort; split <;> rfl

@[simp] theorem setCastleShort_drawCounter (b : Board) (c : Nat) (v : Bool) :
    (Board.setCastleShort b c v).drawCounter = b.drawCounter := by
  unfold Board.setCastleShort; split <;> rfl

@[simp] theorem setCastleShort_checkInfo (b : Board) (c : Nat) (v : Bool) :
    (Board.setCastleShort b c v).checkInfo = b.checkInfo := by
  unfold Board.setCastleShort; split <;> rfl

@[simp] theorem setCastleShort_epSquare (b : Board) (c : Nat) (v : Bool) :
    (Board.setCastleShort b c v).epSquare = b.epSquare := by
  unfold Board.setCastleShort; split <;> rfl

@[simp] theorem setCastleShort_player (b : Board) (c : Nat) (v : Bool) :
    (Board.setCastleShort b c v).player = b.player := by
  unfold Board.setCastleShort; split <;> rfl

@[simp] theorem setCastleShort_kingB (b : Board) (c : Nat) (v : Bool) :
    (Board.setCastleShort b c v).kingB = b.kingB := by
  unfold Board.setCastleShort; split <;> rfl

@[simp] theorem setCastleShort_kingW (b : Board) (c : Nat) (v : Bool) :
    (Board.setCastleShort b c v).kingW = b.kingW := by
  unfold Board.setCastleShort; split <;> rfl

@[simp] theorem setCastleShort_slidersB (b : Board) (c : Nat) (v : Bool) :
    (Board.setCastleShort b c v).slidersB = b.slidersB := by
  unfold Board.setCastleShort; split <;> rfl

@[simp] theorem setCastleShort_slidersW (b : Board) (c : Nat) (v : Bool) :
    (Board.setCastleShort b c v).slidersW = b.slidersW := by
  unfold Board.setCastleShort; split <;> rfl

@[simp] theorem setCastleShort_queensB (b : Board) (c : Nat) (v : Bool) :
    (Board.setCastleShort b c v).queensB = b.queensB := by
  unfold Board.setCastleShort; split <;> rfl

@[simp] theorem setCastleShort_queensW (b : Board) (c : Nat) (v : Bool) :
    (Board.setCastleShort b c v).queensW = b.queensW := by
  unfold Board.setCastleShort; split <;> rfl

@[simp] theorem setCastleShort_rooksB (b : Board) (c : Nat) (v : Bool) :
    (Board.setCastleShort b c v).rooksB = b.rooksB := by
  unfold Board.setCastleShort; split <;> rfl

@[simp] theorem setCastleShort_rooksW (b : Board) (c : Nat) (v : Bool) :
    (Board.setCastleShort b c v).rooksW = b.rooksW := by
  unfold Board.setCastleShort; split <;> rfl

@[simp] theorem setCastleShort_bishopsB (b : Board) (c : Nat) (v : Bool) :
    (Board.setCastleShort b c v).bishopsB = b.bishopsB := by
  unfold Board.setCastleShort; split <;> rfl

@[simp] theorem setCastleShort_bishopsW (b : Board) (c : Nat) (v : Bool) :
    (Board.setCastleShort b c v).bishopsW = b.bishopsW := by
  unfold Board.setCastleShort; split <;> rfl

@[simp] theorem setCastleShort_knightsB (b : Board) (c : Nat) (v : Bool) :
    (Board.setCastleShort b c v).knightsB = b.knightsB := by
  unfold Board.setCastleShort; split <;> rfl

@[simp] theorem setCastleShort_knightsW (b : Board) (c : Nat) (v : Bool) :
    (Board.setCastleShort b c v).knightsW = b.knightsW := by
  unfold Board.setCastleShort; split <;> rfl

@[simp] theorem setCastleShort_pawnsB (b : Board) (c : Nat) (v : Bool) :
    (Board.setCastleShort b c v).pawnsB = b.pawnsB := by
  unfold Board.setCastleShort; split <;> rfl

@[simp] theorem setCastleShort_pawnsW (b : Board) (c : Nat) (v : Bool) :
    (Board.setCastleShort b c v).pawnsW = b.pawnsW := by
  unfold Board.setCastleShort; split <;> rfl

@[simp] theorem setCastleLong_squares (b : Board) (c : Nat) (v : Bool) :
    (Board.setCastleLong b c v).squares = b.squares := by
  unfold Board.setCastleLong; split <;> rfl

@[simp] theorem setCastleLong_castleShortB (b : Board) (c : Nat) (v : Bool) :
    (Board.setCastleLong b c v).castleShortB = b.castleShortB := by
  unfold Board.setCastleLong; split <;> rfl

@[simp] theorem setCastleLong_castleShortW (b : Board) (c : Nat) (v : Bool) :
    (Board.setCastleLong b c v).castleShortW = b.castleShortW := by
  unfold Board.setCastleLong; split <;> rfl

@[simp] theorem setCastleLong_castleLongB (b : Board) (c : Nat) (v : Bool) :
    (Board.setCastleLong b c v).castleLongB = (if c == WHITE then b.castleLongB else v) := by
  unfold Board.setCastleLong; split <;> simp_all

@[simp] theorem setCastleLong_castleLongW (b : Board) (c : Nat) (v : Bool) :
    (Board.setCastleLong b c v).castleLongW = (if c == WHITE then v else b.castleLongW) := by
  unfold Board.setCastleLong; split <;> simp_all

@[simp] theorem setCastleLong_moveNumber (b : Board) (c : Nat) (v : Bool) :
    (Board.setCastleLong b c v).moveNumber = b.moveNumber := by
  unfold Board.setCastleLong; split <;> rfl

@[simp] theorem setCastleLong_drawCounter (b : Board) (c : Nat) (v : Bool) :
    (Board.setCastleLong b c v).drawCounter = b.drawCounter := by
  unfold Board.setCastleLong; split <;> rfl

@[simp] theorem setCastleLong_checkInfo (b : Board) (c : Nat) (v : Bool) :
    (Board.setCastleLong b c v).checkInfo = b.checkInfo := by
  unfold Board.setCastleLong; split <;> rfl

@[simp] theorem setCastleLong_epSquare (b : Board) (c : Nat) (v : Bool) :
    (Board.setCastleLong b c v).epSquare = b.epSquare := by
  unfold Board.setCastleLong; split <;> rfl

@[simp] theorem setCastleLong_player (b : Board) (c : Nat) (v : Bool) :
    (Board.setCastleLong b c v).player = b.player := by
  unfold Board.setCastleLong; split <;> rfl

@[simp] theorem setCastleLong_kingB (b : Board) (c : Nat) (v : Bool) :
    (Board.setCastleLong b c v).kingB = b.kingB := by
  unfold Board.setCastleLong; split <;> rfl

@[simp] theorem setCastleLong_kingW (b : Board) (c : Nat) (v : Bool) :
    (Board.setCastleLong b c v).kingW = b.kingW := by
  unfold Board.setCastleLong; split <;> rfl

@[simp] theorem setCastleLong_slidersB (b : Board) (c : Nat) (v : Bool) :
    (Board.setCastleLong b c v).slidersB = b.slidersB := by
  unfold Board.setCastleLong; split <;> rfl

@[simp] theorem setCastleLong_slidersW (b : Board) (c : Nat) (v : Bool) :
    (Board.setCastleLong b c v).slidersW = b.slidersW := by
  unfold Board.setCastleLong; split <;> rfl

@[simp] theorem setCastleLong_queensB (b : Board) (c : Nat) (v : Bool) :
    (Board.setCastleLong b c v).queensB = b.queensB := by
  unfold Board.setCastleLong; split <;> rfl

@[simp] theorem setCastleLong_queensW (b : Board) (c : Nat) (v : Bool) :
    (Board.setCastleLong b c v).queensW = b.queensW := by
  unfold Board.setCastleLong; split <;> rfl

@[simp] theorem setCastleLong_rooksB (b : Board) (c : Nat) (v : Bool) :
    (Board.setCastleLong b c v).rooksB = b.rooksB := by
  unfold Board.setCastleLong; split <;> rfl

@[simp] theorem setCastleLong_rooksW (b : Board) (c : Nat) (v : Bool) :
    (Board.setCastleLong b c v).rooksW = b.rooksW := by
  unfold Board.setCastleLong; split <;> rfl

@[simp] theorem setCastleLong_bishopsB (b : Board) (c : Nat) (v : Bool) :
    (Board.setCastleLong b c v).bishopsB = b.bishopsB := by
  unfold Board.setCastleLong; split <;> rfl

@[simp] theorem setCastleLong_bishopsW (b : Board) (c : Nat) (v : Bool) :
    (Board.setCastleLong b c v).bishopsW = b.bishopsW := by
  unfold Board.setCastleLong; split <;> rfl

@[simp] theorem setCastleLong_knightsB (b : Board) (c : Nat) (v : Bool) :
    (Board.setCastleLong b c v).knightsB = b.knightsB := by
  unfold Board.setCastleLong; split <;> rfl

@[simp] theorem setCastleLong_knightsW (b : Board) (c : Nat) (v : Bool) :
    (Board.setCastleLong b c v).knightsW = b.knightsW := by
  unfold Board.setCastleLong; split <;> rfl

@[simp] theorem setCastleLong_pawnsB (b : Board) (c : Nat) (v : Bool) :
    (Board.setCastleLong b c v).pawnsB = b.pawnsB := by
  unfold Board.setCastleLong; split <;> rfl

@[simp] theorem setCastleLong_pawnsW (b : Board) (c : Nat) (v : Bool) :
    (Board.setCastleLong b c v).pawnsW = b.pawnsW := by
  unfold Board.setCastleLong; split <;> rfl

end Board

/-! ## C8: malformed FEN leaves the board untouched -/

/-- C8: for every malformed FEN string (one the parser rejects), `SetFEN`
reports the error (`false`) and returns the board exactly as it was —
the Go code returns before assigning any member. -/
theorem C8_setFEN_error_no_state_change (b : Board) (fen : String)
    (h : ParseFEN fen = Option.none) : SetFEN b fen = (b, false) := by
  unfold SetFEN
  rw [h]

/-- Witness for C8 at a concrete malformed FEN. -/
theorem C8_setFEN_error_no_state_change_witness :
    SetFEN startBoard "not a fen" = (startBoard, false) :=
  C8_setFEN_error_no_state_change startBoard "not a fen" (by decide)

/-! ## C9: move application and the counters -/

/-- Frame facts for `removePiece`: the counters survive. -/
theorem removePiece_counters (b : Board) (sq : Nat) (b' : Board)
    (h : removePiece b sq = some b') :
    b'.moveNumber = b.moveNumber ∧ b'.drawCounter = b.drawCounter := by
  simp only [removePiece] at h
  split_ifs at h <;>
    first
      | exact Option.noConfusion h
      | (simp only [Option.some.injEq] at h; subst h; constructor <;> simp)

/-- Frame facts for `addPiece`: the counters survive. -/
theorem addPiece_counters (b : Board) (sq piece : Nat) (b' : Board)
    (h : addPiece b sq piece = some b') :
    b'.moveNumber = b.moveNumber ∧ b'.drawCounter = b.drawCounter := by
  simp only [addPiece] at h
  split_ifs at h <;>
    first
      | exact Option.noConfusion h
      | (simp only [Option.some.injEq] at h; subst h; constructor <;> simp)

set_option maxHeartbeats 1000000 in
/-- C9 (amended): `MakeLegalMove` increments `MoveNumber` by exactly 1 in
16-bit arithmetic (wrapping 65535 to 0) on every ply, whatever the color,
and leaves `DrawCounter` unchanged. -/
theorem C9_makeLegalMove_counters (b : Board) (m : BitMove) (b' : Board)
    (h : MakeLegalMove b m = some b') :
    b'.moveNumber = (b.moveNumber + 1) % 65536 ∧ b'.drawCounter = b.drawCounter := by
  simp only [MakeLegalMove] at h
  split at h
  next => exact Option.noConfusion h
  next b1 heq =>
    have hb1 : b1.moveNumber = b.moveNumber ∧ b1.drawCounter = b.drawCounter := by
      split_ifs at heq <;>
        first
          | exact Option.noConfusion heq
          | (simp only [Option.some.injEq] at heq; subst heq; constructor <;> simp)
          | (split at heq <;>
              first
                | exact Option.noConfusion heq
                | (rename_i b0 hrem
                   have hr := removePiece_counters _ _ _ hrem
                   simp only [Option.some.injEq] at heq; subst heq
                   constructor <;> simp [hr.1, hr.2]))
          | exact removePiece_counters _ _ _ heq
    split at h
    next => exact Option.noConfusion h
    next bf heq2 =>
      have hbf : bf.moveNumber = b1.moveNumber ∧ bf.drawCounter = b1.drawCounter := by
        split_ifs at heq2 <;>
          first
            | exact Option.noConfusion heq2
            | (simp only [Option.some.injEq] at heq2; subst heq2; constructor <;> simp)
            | (have hc := addPiece_counters _ _ _ _ heq2
               refine ⟨?_, ?_⟩ <;> simp [hc.1, hc.2])
      simp only [Option.some.injEq] at h
      subst h
      simp [hb1.1, hb1.2, hbf.1, hbf.2]

set_option maxRecDepth 100000 in
/-- C9 counterexample: at `MoveNumber = 65535` (reachable, the field is a
Go `uint16`) applying the legal move e2e4 does not increment `MoveNumber`
by exactly 1 — the counter wraps to 0. -/
theorem C9_counterexample :
    (MakeLegalMove { startBoard with moveNumber := 65535 } (NewBitMove 0x14 0x34 NONE)).map
      Board.moveNumber ≠ some (65535 + 1) ∧
    (MakeLegalMove { startBoard with moveNumber := 65535 } (NewBitMove 0x14 0x34 NONE)).map
      Board.moveNumber = some 0 := by decide

set_option maxRecDepth 100000 in
/-- Witness for C9 at the concrete move e2e4 from the start position. -/
theorem C9_makeLegalMove_counters_witness :
    ((MakeLegalMove startBoard (NewBitMove 0x14 0x34 NONE)).getD zeroBoard).moveNumber
      = (startBoard.moveNumber + 1) % 65536 ∧
    ((MakeLegalMove startBoard (NewBitMove 0x14 0x34 NONE)).getD zeroBoard).drawCounter
      = startBoard.drawCounter :=
  C9_makeLegalMove_counters startBoard (NewBitMove 0x14 0x34 NONE) _ (by decide)

/-! ## C5: `DIFF_DIRS` at king-only / knight-only deltas -/

set_option maxRecDepth 100000 in
/-- C5 counterexample: the delta of the knight jump a1 -> c2 (packed delta
`0x65 = 101`) is a knight-only relation (`SQUARE_DIFFS` holds exactly the
KNIGHT bit), yet `DIFF_DIRS` holds the knight step 18, not 0. -/
theorem C5_counterexample :
    onBoard 0x00 = true ∧ onBoard 0x12 = true ∧ sqDiff 0x00 0x12 = 101 ∧
    squareDiffsAt 101 = KNIGHT ∧ diffDirsAt 101 = 18 ∧ diffDirsAt 101 ≠ 0 := by
  decide

set_option maxRecDepth 100000 in
set_option maxHeartbeats 4000000 in
/-- C5 (amended): after the diff maps are populated, no delta between
playable squares is king-only (an adjacent square is always also a slider
delta), and at every knight-only delta `DIFF_DIRS` holds the (nonzero)
knight step leading from `from` to `to`, not 0. -/
theorem C5_knight_king_diff_dirs :
    ∀ f < 128, ∀ t < 128, (onBoard f && onBoard t) = true →
      squareDiffsAt (sqDiff f t) ≠ KING ∧
      (squareDiffsAt (sqDiff f t) = KNIGHT →
        diffDirsAt (sqDiff f t) ≠ 0 ∧ sqAdd f (diffDirsAt (sqDiff f t)) = t) := by
  decide

set_option maxRecDepth 100000 in
/-- Witness for C5 at the knight jump a1 -> c2. -/
theorem C5_knight_king_diff_dirs_witness :
    squareDiffsAt (sqDiff 0x00 0x12) ≠ KING ∧
    (squareDiffsAt (sqDiff 0x00 0x12) = KNIGHT →
      diffDirsAt (sqDiff 0x00 0x12) ≠ 0 ∧
      sqAdd 0x00 (diffDirsAt (sqDiff 0x00 0x12)) = 0x12) :=
  C5_knight_king_diff_dirs 0x00 (by decide) 0x12 (by decide) (by decide)

/-! ## Frame machinery: the move generator only writes the info board and
`CheckInfo` -/

/-- Every `Board` field except `squares` and `checkInfo`, as one tuple. -/
def coreOf (b : Board) :=
  (b.castleShortB, b.castleShortW, b.castleLongB, b.castleLongW, b.moveNumber,
   b.drawCounter, b.epSquare, b.player, b.kingB, b.kingW, b.slidersB,
   b.slidersW, b.queensB, b.queensW, b.rooksB, b.rooksW, b.bishopsB,
   b.bishopsW, b.knightsB, b.knightsW, b.pawnsB, b.pawnsW)

/-- A left fold whose step keeps an invariant keeps it. -/
theorem foldlInv {α β : Type} (P : α → Prop) (f : α → β → α) (l : List β)
    (acc : α) (hf : ∀ a x, P a → P (f a x)) (h0 : P acc) : P (l.foldl f acc) := by
  induction l generalizing acc with
  | nil => exact h0
  | cons x xs ih => exact ih _ (hf _ _ h0)

theorem tryPawnMoveLegality_core (b : Board) (fromSq toSq capSq capPiece color : Nat) :
    coreOf (tryPawnMoveLegality b fromSq toSq capSq capPiece color).1 = coreOf b := rfl

theorem tryPawnMoveLegality_checkInfo (b : Board) (fromSq toSq capSq capPiece color : Nat) :
    (tryPawnMoveLegality b fromSq toSq capSq capPiece color).1.checkInfo = b.checkInfo := rfl

theorem newPawnMoveIfLegal_core (b : Board) (color fromSq toSq ptype capPiece promtype eptype : Nat) :
    coreOf (newPawnMoveIfLegal b color fromSq toSq ptype capPiece promtype eptype).1 = coreOf b := by
  simp only [newPawnMoveIfLegal]
  split_ifs <;> rfl

theorem newPawnMoveIfLegal_checkInfo (b : Board) (color fromSq toSq ptype capPiece promtype eptype : Nat) :
    (newPawnMoveIfLegal b color fromSq toSq ptype capPiece promtype eptype).1.checkInfo = b.checkInfo := by
  simp only [newPawnMoveIfLegal]
  split_ifs <;> rfl

theorem epCapStep_core (color toSq : Nat) (acc : Board × List BitMove) (dir : Nat) :
    coreOf (epCapStep color toSq acc dir).1 = coreOf acc.1 := by
  simp only [epCapStep]
  split_ifs <;> simp [newPawnMoveIfLegal_core]

theorem epCapStep_checkInfo (color toSq : Nat) (acc : Board × List BitMove) (dir : Nat) :
    (epCapStep color toSq acc dir).1.checkInfo = acc.1.checkInfo := by
  simp only [epCapStep]
  split_ifs <;> simp [newPawnMoveIfLegal_checkInfo]

theorem pawnCapStep_core (color fromSq : Nat) (acc : Board × List BitMove) (capdir : Nat) :
    coreOf (pawnCapStep color fromSq acc capdir).1 = coreOf acc.1 := by
  simp only [pawnCapStep]
  split_ifs <;> simp [newPawnMoveIfLegal_core, tryPawnMoveLegality_core]

theorem pawnCapStep_checkInfo (color fromSq : Nat) (acc : Board × List BitMove) (capdir : Nat) :
    (pawnCapStep color fromSq acc capdir).1.checkInfo = acc.1.checkInfo := by
  simp only [pawnCapStep]
  split_ifs <;> simp [newPawnMoveIfLegal_checkInfo, tryPawnMoveLegality_checkInfo]

theorem pawnGenOne_core (color : Nat) (acc : Board × List BitMove) (fromSq : Nat) :
    coreOf (pawnGenOne color acc fromSq).1 = coreOf acc.1 := by
  simp only [pawnGenOne]
  have h1 : coreOf ((PAWN_CAPTURE_DIRS.getD color []).foldl (pawnCapStep color fromSq) acc).1
      = coreOf acc.1 := by
    refine foldlInv (fun (a : Board × List BitMove) => coreOf a.1 = coreOf acc.1) _ _ _ ?_ rfl
    intro a x h
    rw [pawnCapStep_core, h]
  split_ifs <;>
    simp_all [newPawnMoveIfLegal_core, tryPawnMoveLegality_core]

theorem pawnGenOne_checkInfo (color : Nat) (acc : Board × List BitMove) (fromSq : Nat) :
    (pawnGenOne color acc fromSq).1.checkInfo = acc.1.checkInfo := by
  simp only [pawnGenOne]
  have h1 : ((PAWN_CAPTURE_DIRS.getD color []).foldl (pawnCapStep color fromSq) acc).1.checkInfo
      = acc.1.checkInfo := by
    refine foldlInv (fun (a : Board × List BitMove) => a.1.checkInfo = acc.1.checkInfo) _ _ _ ?_ rfl
    intro a x h
    rw [pawnCapStep_checkInfo, h]
  split_ifs <;>
    simp_all [newPawnMoveIfLegal_checkInfo, tryPawnMoveLegality_checkInfo]

theorem GeneratePawnMoves_core (b : Board) (mlist : List BitMove) (color : Nat) :
    coreOf (GeneratePawnMoves b mlist color).1 = coreOf b := by
  simp only [GeneratePawnMoves]
  have hstep : ∀ (a : Board × List BitMove) (x : Nat),
      coreOf a.1 = coreOf b → coreOf (pawnGenOne color a x).1 = coreOf b := by
    intro a x h; rw [pawnGenOne_core, h]
  have hep : ∀ (a : Board × List BitMove) (x : Nat),
      coreOf a.1 = coreOf b → coreOf (epCapStep color b.epSquare a x).1 = coreOf b := by
    intro a x h; rw [epCapStep_core, h]
  split_ifs
  · exact foldlInv (fun (a : Board × List BitMove) => coreOf a.1 = coreOf b) _ _ _ hstep
      (foldlInv (fun (a : Board × List BitMove) => coreOf a.1 = coreOf b) _ _ _ hep rfl)
  · exact foldlInv (fun (a : Board × List BitMove) => coreOf a.1 = coreOf b) _ _ _ hstep rfl

theorem GeneratePawnMoves_checkInfo (b : Board) (mlist : List BitMove) (color : Nat) :
    (GeneratePawnMoves b mlist color).1.checkInfo = b.checkInfo := by
  simp only [GeneratePawnMoves]
  have hstep : ∀ (a : Board × List BitMove) (x : Nat),
      a.1.checkInfo = b.checkInfo → (pawnGenOne color a x).1.checkInfo = b.checkInfo := by
    intro a x h; rw [pawnGenOne_checkInfo, h]
  have hep : ∀ (a : Board × List BitMove) (x : Nat),
      a.1.checkInfo = b.checkInfo → (epCapStep color b.epSquare a x).1.checkInfo = b.checkInfo := by
    intro a x h; rw [epCapStep_checkInfo, h]
  split_ifs
  · exact foldlInv (fun (a : Board × List BitMove) => a.1.checkInfo = b.checkInfo) _ _ _ hstep
      (foldlInv (fun (a : Board × List BitMove) => a.1.checkInfo = b.checkInfo) _ _ _ hep rfl)
  · exact foldlInv (fun (a : Board × List BitMove) => a.1.checkInfo = b.checkInfo) _ _ _ hstep rfl

theorem DetectChecksAndPins_core (b : Board) (color : Nat) :
    coreOf (DetectChecksAndPins b color) = coreOf b := by
  simp only [DetectChecksAndPins]
  split_ifs <;> simp [coreOf, clearMetaInfo]

/-- The fast `BEq Nat` instance agrees with equality. -/
instance : LawfulBEq Nat where
  eq_of_beq h := Nat.eq_of_beq_eq_true h
  rfl := Nat.beq_refl _

/-! ## C3: under double check only the king moves -/

theorem mem_append_single {m x : BitMove} {l : List BitMove} (h : m ∈ l ++ [x]) :
    m ∈ l ∨ m = x := by
  rcases List.mem_append.mp h with h | h
  · exact Or.inl h
  · exact Or.inr (List.mem_singleton.mp h)

/-- Every move `kingDirStep` adds has the king's square as origin. -/
theorem kingDirStep_from (b : Board) (color fromSq : Nat)
    (acc : List Bool × List BitMove) (i : Nat) (m : BitMove)
    (h : m ∈ (kingDirStep b color fromSq acc i).2) :
    m ∈ acc.2 ∨ m.fromSq = fromSq := by
  simp only [kingDirStep] at h
  split_ifs at h <;>
    first
      | exact Or.inl h
      | (rcases mem_append_single h with h | h
         · exact Or.inl h
         · subst h; exact Or.inr rfl)

/-- Every move the 8-direction king fold adds has the king's square as
origin. -/
theorem kingFold_from (b : Board) (color fromSq : Nat) (l : List Nat)
    (acc : List Bool × List BitMove) (m : BitMove)
    (h : m ∈ (l.foldl (kingDirStep b color fromSq) acc).2) :
    m ∈ acc.2 ∨ m.fromSq = fromSq := by
  induction l generalizing acc with
  | nil => exact Or.inl h
  | cons i rest ih =>
    rcases ih _ h with h' | h'
    · exact kingDirStep_from b color fromSq acc i m h'
    · exact Or.inr h'

/-- Every move `GenerateKingMoves` adds to the list has the king's square
of `color` as origin. -/
theorem GenerateKingMoves_from (b : Board) (mlist : List BitMove) (color : Nat)
    (m : BitMove) (h : m ∈ GenerateKingMoves b mlist color) :
    m ∈ mlist ∨ m.fromSq = b.kings color := by
  simp only [GenerateKingMoves] at h
  split_ifs at h <;>
    first
      | exact kingFold_from b color (b.kings color) _ _ m h
      | (rcases mem_append_single h with h | h
         · exact kingFold_from b color (b.kings color) _ _ m h
         · subst h; exact Or.inr rfl)
      | (rcases mem_append_single h with h | h
         · rcases mem_append_single h with h | h
           · exact kingFold_from b color (b.kings color) _ _ m h
           · subst h; exact Or.inr rfl
         · subst h; exact Or.inr rfl)

/-- Extract the player and king squares from a `coreOf` equality. -/
theorem coreOf_player_kings {a b : Board} (h : coreOf a = coreOf b) :
    a.player = b.player ∧ a.kingB = b.kingB ∧ a.kingW = b.kingW := by
  simp only [coreOf, Prod.mk.injEq] at h
  obtain ⟨-, -, -, -, -, -, -, hp, hkB, hkW, -⟩ := h
  exact ⟨hp, hkB, hkW⟩

/-- C3: whenever `GenerateAllLegalMoves` leaves `CheckInfo` at
`CHECK_DOUBLE_CHECK`, every emitted move starts at the king square of the
side to move (only king moves are generated). -/
theorem C3_double_check_king_only (b b' : Board) (ml : List BitMove)
    (h : GenerateAllLegalMoves b [] = (b', ml))
    (hd : b'.checkInfo = CHECK_DOUBLE_CHECK) :
    ∀ m ∈ ml, m.fromSq = b.kings b.player := by
  obtain ⟨hp, hkB, hkW⟩ := coreOf_player_kings (DetectChecksAndPins_core b b.player)
  have hkings : (DetectChecksAndPins b b.player).kings (DetectChecksAndPins b b.player).player
      = b.kings b.player := by
    unfold Board.kings
    rw [hp, hkB, hkW]
  simp only [GenerateAllLegalMoves] at h
  split at h
  · -- double check: only the king moves were generated
    rw [Prod.mk.injEq] at h
    intro m hm
    rw [← h.2] at hm
    rcases GenerateKingMoves_from _ _ _ m hm with h0 | h0
    · exact absurd h0 (List.not_mem_nil m)
    · rw [h0, hkings]
  · -- otherwise `CheckInfo` is not double check: contradiction
    rename_i hif
    rw [Prod.mk.injEq] at h
    have hci : b'.checkInfo = (DetectChecksAndPins b b.player).checkInfo := by
      rw [← h.1]
      exact GeneratePawnMoves_checkInfo _ _ _
    rw [hci] at hd
    simp [hd] at hif

set_option maxRecDepth 100000 in
set_option maxHeartbeats 1000000 in
set_option maxRecDepth 1000000 in
/-- Witness for C3 at a concrete double-check position (white king e1,
black king a8, black rook e8 and black knight d3 both give check): the
emitted move e1-f1 starts at the king square 0x04. -/
theorem C3_double_check_king_only_witness :
    BitMove.fromSq ⟨4, 5, 0⟩
      = (SetFEN zeroBoard "k3r3/8/8/8/8/3n4/8/4K3 w - - 0 1").1.kings
        (SetFEN zeroBoard "k3r3/8/8/8/8/3n4/8/4K3 w - - 0 1").1.player :=
  C3_double_check_king_only _ _ _ rfl (by decide) ⟨4, 5, 0⟩ (by decide)

/-! ## Squares frame: check/pin detection writes only info bytes -/

/-- Byte positions without bit 3 (all playable squares, and everything the
left half of the 0x88 board can reach) are never an info index. -/
theorem bit3_free_ne_toInfoIndex {sq : Nat} (h : sq &&& 8 = 0) (x : Nat) :
    sq ≠ toInfoIndex x := by
  intro heq
  have h8 : Nat.testBit 8 3 = true := by decide
  have h1 : sq.testBit 3 = false := by
    have := congrArg (fun n => n.testBit 3) h
    simp only [Nat.testBit_and, h8, Bool.and_true, Nat.zero_testBit] at this
    exact this
  have h2 : (toInfoIndex x).testBit 3 = true := by
    simp [toInfoIndex, Nat.testBit_or, h8]
  rw [heq, h2] at h1
  exact Bool.noConfusion h1

/-- Playable squares have no bit 3. -/
theorem onBoard_bit3_free {sq : Nat} (h : onBoard sq = true) : sq &&& 8 = 0 := by
  have h1 : sq &&& 136 = 0 := by simpa [onBoard] using h
  have h136 : Nat.testBit 136 3 = true := by decide
  have h2 : sq.testBit 3 = false := by
    have := congrArg (fun n => n.testBit 3) h1
    simp only [Nat.testBit_and, h136, Bool.and_true, Nat.zero_testBit] at this
    exact this
  have := Nat.and_two_pow sq 3
  simp [h2] at this
  simpa using this

/-- `n'` agrees with `n` on every byte without bit 3 (in particular on the
64 playable squares of the board). -/
def PreservesNonInfo (n n' : Nat) : Prop :=
  ∀ sq, sq &&& 8 = 0 → sqGet n' sq = sqGet n sq

theorem PreservesNonInfo.refl (n : Nat) : PreservesNonInfo n n := fun _ _ => rfl

theorem PreservesNonInfo.trans {n1 n2 n3 : Nat} (h12 : PreservesNonInfo n1 n2)
    (h23 : PreservesNonInfo n2 n3) : PreservesNonInfo n1 n3 :=
  fun sq h => (h23 sq h).trans (h12 sq h)

/-- Writing at an info index preserves all bit-3-free bytes. -/
theorem sqSet_info_preserves (n x v : Nat) :
    PreservesNonInfo n (sqSet n (toInfoIndex x) v) := by
  intro sq h
  exact sqSet_get_ne n (toInfoIndex x) sq v (bit3_free_ne_toInfoIndex h x)

/-- All 64 unrolled info indexes have bit 3. -/
theorem INFO_INDEXES_bit3 : ∀ i ∈ INFO_INDEXES, i &&& 8 = 8 := by decide

theorem clearMetaInfo_preserves (b : Board) :
    PreservesNonInfo b.squares (clearMetaInfo b).squares := by
  unfold clearMetaInfo
  have hgen : ∀ (l : List Nat) (n : Nat), (∀ i ∈ l, i &&& 8 = 8) →
      PreservesNonInfo n (l.foldl (fun n i => sqSet n i INFO_NONE) n) := by
    intro l
    induction l with
    | nil => intro n _; exact PreservesNonInfo.refl n
    | cons i rest ih =>
      intro n hl
      refine PreservesNonInfo.trans ?_ (ih _ (fun j hj => hl j (List.mem_cons_of_mem i hj)))
      intro sq h
      refine sqSet_get_ne n i sq INFO_NONE ?_
      intro heq
      rw [heq] at h
      rw [hl i (List.mem_cons_self i rest)] at h
      exact absurd h (by omega)
  exact hgen INFO_INDEXES b.squares INFO_INDEXES_bit3

theorem markRay_preserves (kingSq back info : Nat) (fuel : Nat) :
    ∀ sqs stepSq, PreservesNonInfo sqs (markRay kingSq back info fuel sqs stepSq) := by
  induction fuel with
  | zero => intro sqs stepSq; exact PreservesNonInfo.refl sqs
  | succ fuel ih =>
    intro sqs stepSq
    unfold markRay
    split
    · exact PreservesNonInfo.refl sqs
    · exact PreservesNonInfo.trans (sqSet_info_preserves _ _ _) (ih _ _)

theorem detectSliderStep_preserves (color kingSq ptype ccount : Nat) (st : DetState)
    (sliderSq : Nat) :
    PreservesNonInfo st.sqs (detectSliderStep color kingSq ptype ccount st sliderSq).1.sqs := by
  simp only [detectSliderStep]
  split_ifs <;>
    first
      | exact PreservesNonInfo.refl _
      | (exact PreservesNonInfo.trans (markRay_preserves _ _ _ _ _ _)
          (sqSet_info_preserves _ _ _))
      | exact markRay_preserves _ _ _ _ _ _

theorem detectSliderList_preserves (color kingSq ptype ccount : Nat) :
    ∀ (l : List Nat) (st : DetState),
      PreservesNonInfo st.sqs (detectSliderList color kingSq ptype ccount st l).sqs := by
  intro l
  induction l with
  | nil => intro st; exact PreservesNonInfo.refl _
  | cons sliderSq rest ih =>
    intro st
    unfold detectSliderList
    have hstep := detectSliderStep_preserves color kingSq ptype ccount st sliderSq
    split
    · rename_i st1 heq
      have : st1 = (detectSliderStep color kingSq ptype ccount st sliderSq).1 := by
        rw [heq]
      rw [this] at *
      exact PreservesNonInfo.trans hstep (ih _)
    · rename_i st1 heq
      have : st1 = (detectSliderStep color kingSq ptype ccount st sliderSq).1 := by
        rw [heq]
      rw [this]
      exact hstep

theorem detectKnightPhase_preserves (b0 : Board) (color : Nat) :
    PreservesNonInfo b0.squares (detectKnightPhase b0 color).sqs := by
  simp only [detectKnightPhase]
  split
  · exact sqSet_info_preserves _ _ _
  · exact PreservesNonInfo.refl _

theorem detectPawnPhase_preserves (b0 : Board) (color : Nat) (st0 : DetState) :
    PreservesNonInfo st0.sqs (detectPawnPhase b0 color st0).sqs := by
  simp only [detectPawnPhase]
  split
  · exact sqSet_info_preserves _ _ _
  · exact PreservesNonInfo.refl _

set_option maxHeartbeats 1000000 in
theorem DetectChecksAndPins_preserves (b : Board) (color : Nat) :
    PreservesNonInfo b.squares (DetectChecksAndPins b color).squares := by
  have h01 : PreservesNonInfo b.squares
      (detectPawnPhase (clearMetaInfo b) color (detectKnightPhase (clearMetaInfo b) color)).sqs :=
    PreservesNonInfo.trans (clearMetaInfo_preserves b)
      (PreservesNonInfo.trans (detectKnightPhase_preserves _ color)
        (detectPawnPhase_preserves _ color _))
  simp only [DetectChecksAndPins]
  generalize hst1 : detectPawnPhase (clearMetaInfo b) color
      (detectKnightPhase (clearMetaInfo b) color) = st1
  rw [hst1] at h01
  have hQ := detectSliderList_preserves color ((clearMetaInfo b).kings color) QUEEN st1.cc
    ((clearMetaInfo b).queens (flipColor color)) { st1 with cc := 0 }
  generalize hstQ : detectSliderList color ((clearMetaInfo b).kings color) QUEEN st1.cc
      { st1 with cc := 0 } ((clearMetaInfo b).queens (flipColor color)) = stQ
  rw [hstQ] at hQ
  have hB := detectSliderList_preserves color ((clearMetaInfo b).kings color) BISHOP
    (st1.cc + stQ.cc) ((clearMetaInfo b).bishops (flipColor color)) { stQ with cc := 0 }
  generalize hstB : detectSliderList color ((clearMetaInfo b).kings color) BISHOP
      (st1.cc + stQ.cc) { stQ with cc := 0 } ((clearMetaInfo b).bishops (flipColor color)) = stB
  rw [hstB] at hB
  have hR := detectSliderList_preserves color ((clearMetaInfo b).kings color) ROOK
    (st1.cc + stQ.cc + stB.cc) ((clearMetaInfo b).rooks (flipColor color)) { stB with cc := 0 }
  generalize hstR : detectSliderList color ((clearMetaInfo b).kings color) ROOK
      (st1.cc + stQ.cc + stB.cc) { stB with cc := 0 } ((clearMetaInfo b).rooks (flipColor color)) = stR
  rw [hstR] at hR
  split_ifs
  · exact h01.trans hQ
  · exact h01.trans (hQ.trans hB)
  · exact h01.trans (hQ.trans (hB.trans hR))
  · exact h01.trans (hQ.trans (hB.trans hR))

/-! ## Exact restoration of the squares array by the pawn generator -/

/-- Byte `i+1` of `n` is byte `i` of `n / 256`. -/
theorem sqGet_succ (n i : Nat) : sqGet n (i + 1) = sqGet (n / 256) i := by
  unfold sqGet
  rw [Nat.div_div_eq_div_mul, pow_succ, Nat.mul_comm]

/-- A number all of whose bytes are zero is zero. -/
theorem sqGet_all_zero {n : Nat} (h : ∀ i, sqGet n i = 0) : n = 0 := by
  induction n using Nat.strong_induction_on with
  | _ n ih =>
    rcases Nat.eq_zero_or_pos n with h0 | hpos
    · exact h0
    · have h256 : n % 256 = 0 := by simpa [sqGet] using h 0
      have hdiv : n / 256 = 0 := by
        refine ih (n / 256) (Nat.div_lt_self hpos (by omega)) ?_
        intro i
        have := h (i + 1)
        rwa [sqGet_succ] at this
      omega

/-- Packed byte arrays are extensional: equal bytes everywhere means equal. -/
theorem sqGet_ext {a : Nat} : ∀ {b : Nat}, (∀ i, sqGet a i = sqGet b i) → a = b := by
  induction a using Nat.strong_induction_on with
  | _ a ih =>
    intro b h
    rcases Nat.eq_zero_or_pos a with h0 | hpos
    · subst h0
      refine (sqGet_all_zero ?_).symm
      intro i
      have := (h i).symm
      simpa [sqGet] using this
    · have hmod : a % 256 = b % 256 := by
        have := h 0
        simpa [sqGet] using this
      have hdiv : a / 256 = b / 256 := by
        refine ih (a / 256) (Nat.div_lt_self hpos (by omega)) ?_
        intro i
        have := h (i + 1)
        rwa [sqGet_succ, sqGet_succ] at this
      omega

/-- Writing back a byte's current value changes nothing. -/
theorem sqSet_get_self_id (n i : Nat) : sqSet n i (sqGet n i) = n := by
  apply sqGet_ext
  intro j
  rcases eq_or_ne j i with rfl | hne
  · rw [sqSet_get_self, Nat.mod_eq_of_lt (sqGet_lt n j)]
  · exact sqSet_get_ne n i j _ hne

/-- A board whose squares are replaced by an equal value is unchanged. -/
theorem board_eta (b : Board) (s : Nat) (h : s = b.squares) :
    ({ b with squares := s } : Board) = b := by rw [h]

/-- Adding a direction that is nonzero mod 256 moves the square. -/
theorem sqAdd_ne_self {d : Nat} (hd : d % 256 ≠ 0) (f : Nat) : sqAdd f d ≠ f := by
  intro h
  unfold sqAdd at h
  omega

/-- Two directions distinct mod 256 lead to distinct squares. -/
theorem sqAdd_ne_sqAdd {d e : Nat} (hd : d % 256 ≠ e % 256) (f : Nat) :
    sqAdd f d ≠ sqAdd f e := by
  intro h
  unfold sqAdd at h
  omega

/-- `tryPawnMoveLegality` restores the squares array exactly when the moving
pawn really is on `fromSq` and `capPiece`/`EMPTY` are the true contents of the
squares it overwrites. -/
theorem tryPawnMoveLegality_fst (b : Board) (fromSq toSq capSq capPiece color : Nat)
    (hft : fromSq ≠ toSq) (hfc : fromSq ≠ capSq)
    (hfrom : sqGet b.squares fromSq = PAWN ||| color) (hcol : color < 2)
    (hcap : sqGet b.squares capSq = capPiece) (hcapLt : capPiece < 256)
    (hto : capSq ≠ toSq → sqGet b.squares toSq = EMPTY) :
    (tryPawnMoveLegality b fromSq toSq capSq capPiece color).1 = b := by
  have hP : (PAWN ||| color) % 256 = PAWN ||| color := by
    interval_cases color <;> decide
  simp only [tryPawnMoveLegality]
  apply board_eta
  apply sqGet_ext
  intro j
  have hget1 : sqGet (sqSet b.squares capSq EMPTY) fromSq = PAWN ||| color := by
    rw [sqSet_get_ne _ _ _ _ hfc, hfrom]
  rw [hget1]
  split_ifs with hcB
  · -- capSq ≠ toSq : en-passant shape
    have hct : capSq ≠ toSq := by simpa using hcB
    rcases eq_or_ne j toSq with rfl | hjt
    · rw [sqSet_get_self, hto hct]
      decide
    · rw [sqSet_get_ne _ _ _ _ hjt]
      rcases eq_or_ne j capSq with rfl | hjc
      · rw [sqSet_get_self, Nat.mod_eq_of_lt hcapLt, hcap]
      · rw [sqSet_get_ne _ _ _ _ hjc]
        rcases eq_or_ne j fromSq with rfl | hjf
        · rw [sqSet_get_self, hP, hfrom]
        · rw [sqSet_get_ne _ _ _ _ hjf, sqSet_get_ne _ _ _ _ hjf,
            sqSet_get_ne _ _ _ _ hjt, sqSet_get_ne _ _ _ _ hjc]
  · -- capSq = toSq
    have hct : capSq = toSq := by simpa using hcB
    subst hct
    rcases eq_or_ne j capSq with rfl | hjc
    · rw [sqSet_get_self, Nat.mod_eq_of_lt hcapLt, hcap]
    · rw [sqSet_get_ne _ _ _ _ hjc]
      rcases eq_or_ne j fromSq with rfl | hjf
      · rw [sqSet_get_self, hP, hfrom]
      · rw [sqSet_get_ne _ _ _ _ hjf, sqSet_get_ne _ _ _ _ hjf,
          sqSet_get_ne _ _ _ _ hjc, sqSet_get_ne _ _ _ _ hjc]

/-- `newPawnMoveIfLegal` leaves the board unchanged; in the en-passant case
this needs the restoration property of `tryPawnMoveLegality`. -/
theorem newPawnMoveIfLegal_fst (b : Board)
    (color fromSq toSq ptype capPiece promtype eptype : Nat)
    (h : eptype = EP_TYPE_CAPTURE →
      (tryPawnMoveLegality b fromSq toSq
        (sqAdd toSq (PAWN_PUSH_DIRS.getD (flipColor color) 0)) capPiece color).1 = b) :
    (newPawnMoveIfLegal b color fromSq toSq ptype capPiece promtype eptype).1 = b := by
  simp only [newPawnMoveIfLegal]
  split_ifs with h1 h2 h3 h4 <;>
    first
      | rfl
      | exact h (by simpa using h1)

/-- A fold whose steps return the board untouched returns the board
untouched. -/
theorem foldl_fst_eq {α : Type} (step : (Board × List BitMove) → α → Board × List BitMove)
    (b : Board) : ∀ (l : List α),
    (∀ (ml : List BitMove) (x : α), x ∈ l → (step (b, ml) x).1 = b) →
    ∀ ml, (l.foldl step (b, ml)).1 = b := by
  intro l
  induction l with
  | nil => intro _ ml; rfl
  | cons x xs ih =>
    intro h ml
    rw [List.foldl_cons]
    have hx := h ml x (List.mem_cons_self x xs)
    rcases hs : step (b, ml) x with ⟨b1, ml1⟩
    have hb1 : b1 = b := by rw [← hx, hs]
    subst hb1
    exact ih (fun ml' x' hx' => h ml' x' (List.mem_cons_of_mem _ hx')) _

/-- One en-passant probe step hands the board back untouched when the
en-passant bytes are as recorded. -/
theorem epCapStep_fst (color toSq : Nat) (b : Board) (ml : List BitMove) (dir : Nat)
    (hcol : color < 2)
    (hto : sqGet b.squares toSq = EMPTY)
    (hcap : sqGet b.squares (sqAdd toSq (PAWN_PUSH_DIRS.getD (flipColor color) 0))
      = PAWN ||| flipColor color)
    (hft : sqAdd toSq dir ≠ toSq)
    (hfc : sqAdd toSq dir ≠ sqAdd toSq (PAWN_PUSH_DIRS.getD (flipColor color) 0))
    (hct : sqAdd toSq (PAWN_PUSH_DIRS.getD (flipColor color) 0) ≠ toSq) :
    (epCapStep color toSq (b, ml) dir).1 = b := by
  have hcapLt : PAWN ||| flipColor color < 256 := by
    interval_cases color <;> decide
  simp only [epCapStep]
  split_ifs with hg hleg <;>
    first
    | rfl
    | · simp only [Bool.and_eq_true, beq_iff_eq] at hg
        exact newPawnMoveIfLegal_fst b color _ toSq _ _ _ _ (fun _ =>
          tryPawnMoveLegality_fst b _ toSq _ _ color hft hfc hg.2 hcol hcap hcapLt
            (fun _ => hto))

/-- One capture-direction step of the per-pawn loop hands the board back
untouched when the moving pawn really is on `fromSq`. -/
theorem pawnCapStep_fst (color fromSq : Nat) (b : Board) (ml : List BitMove) (capdir : Nat)
    (hcol : color < 2)
    (hfrom : sqGet b.squares fromSq = PAWN ||| color)
    (hft : fromSq ≠ sqAdd fromSq capdir) :
    (pawnCapStep color fromSq (b, ml) capdir).1 = b := by
  simp only [pawnCapStep]
  split_ifs <;>
    first
    | rfl
    | exact tryPawnMoveLegality_fst b fromSq _ _ _ color hft hft hfrom hcol rfl
        (sqGet_lt _ _) (fun hcc => absurd rfl hcc)
    | exact newPawnMoveIfLegal_fst b color fromSq _ _ _ _ _
        (fun hh => absurd hh (by decide))

/-- The per-pawn body (captures, pushes, double push) hands the board back
untouched when the moving pawn really is on `fromSq`. -/
theorem pawnGenOne_fst (color : Nat) (b : Board) (ml : List BitMove) (fromSq : Nat)
    (hcol : color < 2)
    (hfrom : sqGet b.squares fromSq = PAWN ||| color) :
    (pawnGenOne color (b, ml) fromSq).1 = b := by
  have hpush : (PAWN_PUSH_DIRS.getD color 0) % 256 ≠ 0 := by
    interval_cases color <;> decide
  have hft : fromSq ≠ sqAdd fromSq (PAWN_PUSH_DIRS.getD color 0) :=
    (sqAdd_ne_self hpush fromSq).symm
  simp only [pawnGenOne]
  rcases hacc : List.foldl (pawnCapStep color fromSq) (b, ml)
      (PAWN_CAPTURE_DIRS.getD color []) with ⟨b1, ml1⟩
  have hcapfold : (List.foldl (pawnCapStep color fromSq) (b, ml)
      (PAWN_CAPTURE_DIRS.getD color [])).1 = b := by
    refine foldl_fst_eq _ b _ ?_ ml
    intro ml'' d hd
    refine pawnCapStep_fst color fromSq b ml'' d hcol hfrom ?_
    have hdm : d % 256 ≠ 0 := by
      interval_cases color <;> simp [PAWN_CAPTURE_DIRS] at hd <;>
        rcases hd with rfl | rfl <;> decide
    exact (sqAdd_ne_self hdm fromSq).symm
  rw [hacc] at hcapfold
  simp only at hcapfold
  subst b1
  by_cases hempty :
      isEmptyP (sqGet b.squares (sqAdd fromSq (PAWN_PUSH_DIRS.getD color 0))) = true
  · rw [if_pos hempty]
    have hemptyEq : sqGet b.squares (sqAdd fromSq (PAWN_PUSH_DIRS.getD color 0)) = EMPTY := by
      simpa [isEmptyP] using hempty
    have htry : (tryPawnMoveLegality b fromSq (sqAdd fromSq (PAWN_PUSH_DIRS.getD color 0))
        (sqAdd fromSq (PAWN_PUSH_DIRS.getD color 0)) EMPTY color).1 = b :=
      tryPawnMoveLegality_fst b _ _ _ _ color hft hft hfrom hcol hemptyEq (by decide)
        (fun hcc => absurd rfl hcc)
    have hnone : (newPawnMoveIfLegal b color fromSq
        (sqAdd fromSq (PAWN_PUSH_DIRS.getD color 0)) (PAWN ||| color) EMPTY EMPTY
        EP_TYPE_NONE).1 = b :=
      newPawnMoveIfLegal_fst b color fromSq _ _ _ _ _ (fun hh => absurd hh (by decide))
    split_ifs <;>
      first
      | rfl
      | exact htry
      | exact hnone
      | exact (newPawnMoveIfLegal_fst _ color fromSq _ _ _ _ _
          (fun hh => absurd hh (by decide))).trans htry
      | exact (newPawnMoveIfLegal_fst _ color fromSq _ _ _ _ _
          (fun hh => absurd hh (by decide))).trans hnone
  · rw [if_neg hempty]
/-- Arithmetic facts about the backwards en-passant probe directions. -/
theorem epDirsArith : ∀ c < 2, ∀ d ∈ PAWN_CAPTURE_DIRS.getD (flipColor c) [],
    d % 256 ≠ 0 ∧ d % 256 ≠ (PAWN_PUSH_DIRS.getD (flipColor c) 0) % 256 ∧
    (PAWN_PUSH_DIRS.getD (flipColor c) 0) % 256 ≠ 0 := by decide

/-- `GeneratePawnMoves` hands the board back exactly as it received it,
provided the pawn list is truthful and the en-passant bytes (empty target,
capturable opposing pawn behind it) are as the board records. -/
theorem GeneratePawnMoves_fst (b : Board) (ml : List BitMove) (color : Nat)
    (hcol : color < 2)
    (hpawns : ∀ sq ∈ b.pawns color, sqGet b.squares sq = PAWN ||| color)
    (hep : b.epSquare ≠ OTB →
      sqGet b.squares b.epSquare = EMPTY ∧
      sqGet b.squares (sqAdd b.epSquare (PAWN_PUSH_DIRS.getD (flipColor color) 0))
        = PAWN ||| flipColor color) :
    (GeneratePawnMoves b ml color).1 = b := by
  simp only [GeneratePawnMoves]
  have hmain : ∀ ml0, (List.foldl (pawnGenOne color) (b, ml0) (b.pawns color)).1 = b := by
    intro ml0
    refine foldl_fst_eq _ b _ ?_ ml0
    intro ml' sq hsq
    exact pawnGenOne_fst color b ml' sq hcol (hpawns sq hsq)
  by_cases hepc : (b.epSquare != OTB) = true
  · rw [if_pos hepc]
    obtain ⟨hepE, hepP⟩ := hep (by simpa using hepc)
    rcases hacc : List.foldl (epCapStep color b.epSquare) (b, ml)
        (PAWN_CAPTURE_DIRS.getD (flipColor color) []) with ⟨b0, ml0⟩
    have h0 : (List.foldl (epCapStep color b.epSquare) (b, ml)
        (PAWN_CAPTURE_DIRS.getD (flipColor color) [])).1 = b := by
      refine foldl_fst_eq _ b _ ?_ ml
      intro ml' d hd
      obtain ⟨ha1, ha2, ha3⟩ := epDirsArith color hcol d hd
      exact epCapStep_fst color b.epSquare b ml' d hcol hepE hepP
        (sqAdd_ne_self ha1 _) (sqAdd_ne_sqAdd ha2 _) (sqAdd_ne_self ha3 _)
    rw [hacc] at h0
    simp only at h0
    subst b0
    exact hmain ml0
  · rw [if_neg hepc]
    exact hmain ml

theorem DetectChecksAndPins_pawns (b : Board) (c col : Nat) :
    (DetectChecksAndPins b c).pawns col = b.pawns col := by
  simp only [DetectChecksAndPins, Board.pawns]
  split_ifs <;> simp [clearMetaInfo]

theorem DetectChecksAndPins_epSquare (b : Board) (c : Nat) :
    (DetectChecksAndPins b c).epSquare = b.epSquare := by
  simp only [DetectChecksAndPins]
  split_ifs <;> simp [clearMetaInfo]

theorem DetectChecksAndPins_player (b : Board) (c : Nat) :
    (DetectChecksAndPins b c).player = b.player := by
  simp only [DetectChecksAndPins]
  split_ifs <;> simp [clearMetaInfo]
/-- C10: `GenerateAllLegalMoves` modifies only the right-half info bytes of
the squares array and the `CheckInfo` field: every other field (piece lists,
kings, castling rights, en-passant square, player, move number, draw counter)
and every playable square's byte are unchanged when it returns.  The board
must record its pawns truthfully and, if an en-passant square is set, the
en-passant bytes must be as a double push leaves them (this is what the
simulate-and-test pawn legality check relies on to restore the squares it
temporarily mutates). -/
theorem C10_generate_all_legal_moves_frame (b : Board) (mlist : List BitMove)
    (hcol : b.player < 2)
    (hpawns : ∀ sq ∈ b.pawns b.player,
      onBoard sq = true ∧ sqGet b.squares sq = PAWN ||| b.player)
    (hep : b.epSquare ≠ OTB →
      (onBoard b.epSquare &&
        onBoard (sqAdd b.epSquare (PAWN_PUSH_DIRS.getD (flipColor b.player) 0))) = true ∧
      sqGet b.squares b.epSquare = EMPTY ∧
      sqGet b.squares (sqAdd b.epSquare (PAWN_PUSH_DIRS.getD (flipColor b.player) 0))
        = PAWN ||| flipColor b.player) :
    coreOf (GenerateAllLegalMoves b mlist).1 = coreOf b ∧
    ∀ sq, onBoard sq = true →
      sqGet (GenerateAllLegalMoves b mlist).1.squares sq = sqGet b.squares sq := by
  have hdet := DetectChecksAndPins_preserves b b.player
  have hdetc := DetectChecksAndPins_core b b.player
  have hpawns1 : ∀ sq ∈ (DetectChecksAndPins b b.player).pawns
      (DetectChecksAndPins b b.player).player,
      sqGet (DetectChecksAndPins b b.player).squares sq = PAWN |||
        (DetectChecksAndPins b b.player).player := by
    intro sq hm
    rw [DetectChecksAndPins_player] at hm ⊢
    rw [DetectChecksAndPins_pawns] at hm
    rw [hdet sq (onBoard_bit3_free (hpawns sq hm).1)]
    exact (hpawns sq hm).2
  have hep1 : (DetectChecksAndPins b b.player).epSquare ≠ OTB →
      sqGet (DetectChecksAndPins b b.player).squares
        (DetectChecksAndPins b b.player).epSquare = EMPTY ∧
      sqGet (DetectChecksAndPins b b.player).squares
        (sqAdd (DetectChecksAndPins b b.player).epSquare
          (PAWN_PUSH_DIRS.getD (flipColor (DetectChecksAndPins b b.player).player) 0))
        = PAWN ||| flipColor (DetectChecksAndPins b b.player).player := by
    rw [DetectChecksAndPins_player, DetectChecksAndPins_epSquare]
    intro hne
    obtain ⟨hob, hepE, hepP⟩ := hep hne
    simp only [Bool.and_eq_true] at hob
    exact ⟨(hdet _ (onBoard_bit3_free hob.1)).trans hepE,
      (hdet _ (onBoard_bit3_free hob.2)).trans hepP⟩
  have hcol1 : (DetectChecksAndPins b b.player).player < 2 := by
    rw [DetectChecksAndPins_player]; exact hcol
  simp only [GenerateAllLegalMoves]
  split_ifs with hdc
  · exact ⟨hdetc, fun sq hsq => hdet sq (onBoard_bit3_free hsq)⟩
  · rw [GeneratePawnMoves_fst _ _ _ hcol1 hpawns1 hep1]
    exact ⟨hdetc, fun sq hsq => hdet sq (onBoard_bit3_free hsq)⟩

/-- Witness for C10 at the initial position. -/
theorem C10_generate_all_legal_moves_frame_witness :
    coreOf (GenerateAllLegalMoves startBoard []).1 = coreOf startBoard ∧
    ∀ sq, onBoard sq = true →
      sqGet (GenerateAllLegalMoves startBoard []).1.squares sq =
        sqGet startBoard.squares sq :=
  C10_generate_all_legal_moves_frame startBoard [] (by decide) (by decide) (by decide)
/-! ## Perft board restoration -/

/-- The per-move loop of `Perft` ends on the snapshot `cpy` whenever it runs
at least one iteration (`*b = cpy` is the last statement of each
iteration). -/
theorem perftGo_restores (f : Board → Option (Board × Nat)) (cpy : Board) :
    ∀ (l : List BitMove) (bc : Board) (nodes : Nat) (b' : Board) (n : Nat),
      l ≠ [] → perftGo f cpy l bc nodes = some (b', n) → b' = cpy := by
  intro l
  induction l with
  | nil => intro bc nodes b' n hne; exact absurd rfl hne
  | cons mv rest ih =>
    intro bc nodes b' n _ h
    simp only [perftGo] at h
    cases hm : MakeLegalMove bc mv with
    | none => rw [hm] at h; exact Option.noConfusion h
    | some b2 =>
      rw [hm] at h
      dsimp only at h
      cases hf : f b2 with
      | none => rw [hf] at h; exact Option.noConfusion h
      | some bn =>
        rw [hf] at h
        dsimp only at h
        cases rest with
        | nil =>
          simp only [perftGo, Option.some.injEq, Prod.mk.injEq] at h
          exact h.1.symm
        | cons mv2 rest2 =>
          exact ih cpy _ b' n (by simp) h

/-- C6 (amended): `Perft` at depth 0 leaves the board untouched, and at
depth ≥ 2 from a position with at least one legal move it hands the board
back byte-for-byte equal to its original value (each loop iteration ends
with `*b = cpy`, and the last iteration's restore is what the caller sees).
At depth 1 — and at depth ≥ 2 with no legal move — the final `*b = cpy`
never runs, so the info bytes and `CheckInfo` rewritten by
`GenerateAllLegalMoves` are *not* restored (see the counterexample). -/
theorem C6_perft_restores (depth : Nat) (b b' : Board) (n : Nat)
    (hmoves : (GenerateAllLegalMoves b []).2 ≠ [])
    (h : Perft (depth + 2) b = some (b', n)) :
    b' = b ∧ Perft 0 b = some (b, 1) := by
  refine ⟨?_, rfl⟩
  simp only [Perft] at h
  exact perftGo_restores _ b _ _ _ b' n hmoves h

set_option maxRecDepth 1000000 in
/-- Witness for C6 at the initial position, depth 2. -/
theorem C6_perft_restores_witness :
    startBoard = startBoard ∧ Perft 0 startBoard = some (startBoard, 1) :=
  C6_perft_restores 0 startBoard startBoard 400 (by decide) (by decide)

set_option maxRecDepth 1000000 in
/-- Counterexample to C6 as stated: `Perft(1)` does not restore the board.
After white plays Qb2-b8 (check), `CheckInfo` is still `CHECK_NONE`; a
depth-1 `Perft` runs `GenerateAllLegalMoves`, which rewrites `CheckInfo` to
the checking queen's square 0x71, and depth 1 returns without restoring, so
the board after the call differs from the board before it. -/
theorem C6_counterexample :
    (MakeLegalMove (SetFEN zeroBoard "k7/8/8/8/8/8/1Q6/K7 w - - 0 1").1
        (NewBitMove 0x11 0x71 0)).map
      (fun b2 => ((Perft 1 b2).map Prod.fst == some b2,
        b2.checkInfo, (Perft 1 b2).map (fun bn => bn.1.checkInfo)))
      = some (false, CHECK_NONE, some 0x71) := by decide
/-! ## C4: a declarative reading of "piece attacks square" -/

/-- `Square.File` (`base/base.go` line 116). -/
def fileOf (sq : Nat) : Nat := sq &&& 7

/-- Distance between two naturals. -/
def natDist (a b : Nat) : Nat := max a b - min a b

/-- Modelled from the spec: a king attacks the eight neighbouring squares. -/
def kingStepP (p q : Nat) : Prop :=
  p ≠ q ∧ natDist (fileOf p) (fileOf q) ≤ 1 ∧ natDist (rankOf p) (rankOf q) ≤ 1

/-- Modelled from the spec: a knight attacks by a (1,2) or (2,1) jump. -/
def knightJumpP (p q : Nat) : Prop :=
  (natDist (fileOf p) (fileOf q) = 1 ∧ natDist (rankOf p) (rankOf q) = 2) ∨
  (natDist (fileOf p) (fileOf q) = 2 ∧ natDist (rankOf p) (rankOf q) = 1)

/-- Modelled from the spec: two distinct squares on a common diagonal. -/
def bishopAlignedP (p q : Nat) : Prop :=
  p ≠ q ∧ natDist (fileOf p) (fileOf q) = natDist (rankOf p) (rankOf q)

/-- Modelled from the spec: two distinct squares on a common file or rank. -/
def rookAlignedP (p q : Nat) : Prop :=
  (fileOf p = fileOf q ∧ rankOf p ≠ rankOf q) ∨
  (rankOf p = rankOf q ∧ fileOf p ≠ fileOf q)

/-- Modelled from the spec: `t` lies strictly between `p` and `q` on their
common file, rank or diagonal. -/
def strictlyBetween (p q t : Nat) : Prop :=
  (fileOf p = fileOf q ∧ fileOf t = fileOf p ∧
    min (rankOf p) (rankOf q) < rankOf t ∧ rankOf t < max (rankOf p) (rankOf q)) ∨
  (rankOf p = rankOf q ∧ rankOf t = rankOf p ∧
    min (fileOf p) (fileOf q) < fileOf t ∧ fileOf t < max (fileOf p) (fileOf q)) ∨
  (natDist (fileOf p) (fileOf q) = natDist (rankOf p) (rankOf q) ∧
    natDist (fileOf p) (fileOf t) = natDist (rankOf p) (rankOf t) ∧
    natDist (fileOf t) (fileOf q) = natDist (rankOf t) (rankOf q) ∧
    min (fileOf p) (fileOf q) < fileOf t ∧ fileOf t < max (fileOf p) (fileOf q) ∧
    min (rankOf p) (rankOf q) < rankOf t ∧ rankOf t < max (rankOf p) (rankOf q))

/-- Modelled from the spec: every playable square strictly between `p` and
`q` is empty. -/
def betweenEmpty (b : Board) (p q : Nat) : Prop :=
  ∀ t < 128, (onBoard t = true ∧ strictlyBetween p q t) → sqGet b.squares t = EMPTY

/-- Modelled from the spec: a pawn of colour `pcolor` on `psq` attacks `sq`
one rank ahead (white upwards, black downwards), one file aside. -/
def pawnAttacksP (pcolor psq sq : Nat) : Prop :=
  natDist (fileOf psq) (fileOf sq) = 1 ∧
  (if pcolor = WHITE then rankOf sq = rankOf psq + 1 else rankOf sq + 1 = rankOf psq)

/-- Modelled from the spec: some piece of `color.Flip()` attacks `sq` on the
board as it stands. -/
def attackedSpec (b : Board) (sq color : Nat) : Prop :=
  ∃ psq, psq < 128 ∧ onBoard psq = true ∧
    ((sqGet b.squares psq = PAWN ||| flipColor color ∧ pawnAttacksP (flipColor color) psq sq) ∨
     (sqGet b.squares psq = KNIGHT ||| flipColor color ∧ knightJumpP psq sq) ∨
     (sqGet b.squares psq = KING ||| flipColor color ∧ kingStepP psq sq) ∨
     (sqGet b.squares psq = BISHOP ||| flipColor color ∧ bishopAlignedP psq sq ∧
       betweenEmpty b psq sq) ∨
     (sqGet b.squares psq = ROOK ||| flipColor color ∧ rookAlignedP psq sq ∧
       betweenEmpty b psq sq) ∨
     (sqGet b.squares psq = QUEEN ||| flipColor color ∧
       (bishopAlignedP psq sq ∨ rookAlignedP psq sq) ∧ betweenEmpty b psq sq))

/-- Modelled from the spec: some piece of `color.Flip()` attacks `sq` on the
board obtained by treating the square `ignoreSq` as empty. -/
def attackedSpecIgnoring (b : Board) (sq ignoreSq color : Nat) : Prop :=
  attackedSpec { b with squares := sqSet b.squares ignoreSq EMPTY } sq color

/-- One piece list agrees with the board: a square is in the list iff the
board holds `piece` there. -/
def listAgrees (b : Board) (l : List Nat) (piece : Nat) : Prop :=
  (∀ s ∈ l, s < 128 ∧ onBoard s = true ∧ sqGet b.squares s = piece) ∧
  (∀ s < 128, (onBoard s = true ∧ sqGet b.squares s = piece) → s ∈ l)

/-- The slider list is the union of the bishop, rook and queen lists. -/
def slidersUnionAgree (b : Board) (c : Nat) : Prop :=
  (∀ s ∈ b.sliders c, s ∈ b.bishops c ∨ s ∈ b.rooks c ∨ s ∈ b.queens c) ∧
  (∀ s ∈ b.bishops c, s ∈ b.sliders c) ∧ (∀ s ∈ b.rooks c, s ∈ b.sliders c) ∧
  (∀ s ∈ b.queens c, s ∈ b.sliders c)

/-- `Kings[c]` points at the unique playable square holding the king. -/
def kingAgrees (b : Board) (c : Nat) : Prop :=
  b.kings c < 128 ∧ onBoard (b.kings c) = true ∧
  sqGet b.squares (b.kings c) = KING ||| c ∧
  (∀ s < 128, (onBoard s = true ∧ sqGet b.squares s = KING ||| c) → s = b.kings c)

/-- The documented board/piece-list agreement invariant for one colour. -/
def ListsAgreeC (b : Board) (c : Nat) : Prop :=
  listAgrees b (b.pawns c) (PAWN ||| c) ∧ listAgrees b (b.knights c) (KNIGHT ||| c) ∧
  listAgrees b (b.bishops c) (BISHOP ||| c) ∧ listAgrees b (b.rooks c) (ROOK ||| c) ∧
  listAgrees b (b.queens c) (QUEEN ||| c) ∧ slidersUnionAgree b c ∧ kingAgrees b c

/-- The documented board/piece-list agreement invariant: a square `s`
appears in the list for (colour, kind) iff `board[s] == kind | colour`;
sliders additionally appear in the slider union list; `Kings` points at the
unique square holding the king. -/
def ListsAgree (b : Board) : Prop := ListsAgreeC b 0 ∧ ListsAgreeC b 1

/-- Every playable byte is `EMPTY` or an encoded piece. -/
def SquaresWF (b : Board) : Prop :=
  ∀ s < 128, onBoard s = true →
    sqGet b.squares s = EMPTY ∨
    ∃ c < 2, ∃ P ∈ [PAWN, KNIGHT, BISHOP, ROOK, QUEEN, KING], sqGet b.squares s = P ||| c

/-- Iterate `sqAdd` along a direction. -/
def sqIter (q dir : Nat) : Nat → Nat
  | 0 => q
  | k + 1 => sqAdd (sqIter q dir k) dir

instance (p q : Nat) : Decidable (kingStepP p q) := by
  unfold kingStepP; infer_instance

instance (p q : Nat) : Decidable (knightJumpP p q) := by
  unfold knightJumpP; infer_instance

instance (p q : Nat) : Decidable (bishopAlignedP p q) := by
  unfold bishopAlignedP; infer_instance

instance (p q : Nat) : Decidable (rookAlignedP p q) := by
  unfold rookAlignedP; infer_instance

instance (p q t : Nat) : Decidable (strictlyBetween p q t) := by
  unfold strictlyBetween; infer_instance

instance (b : Board) (p q : Nat) : Decidable (betweenEmpty b p q) := by
  unfold betweenEmpty; infer_instance

instance (pcolor psq sq : Nat) : Decidable (pawnAttacksP pcolor psq sq) := by
  unfold pawnAttacksP; infer_instance

instance (b : Board) (sq color : Nat) : Decidable (attackedSpec b sq color) := by
  unfold attackedSpec; infer_instance

instance (b : Board) (sq ignoreSq color : Nat) : Decidable (attackedSpecIgnoring b sq ignoreSq color) := by
  unfold attackedSpecIgnoring; infer_instance

instance (b : Board) (l : List Nat) (piece : Nat) : Decidable (listAgrees b l piece) := by
  unfold listAgrees; infer_instance

instance (b : Board) (c : Nat) : Decidable (slidersUnionAgree b c) := by
  unfold slidersUnionAgree; infer_instance

instance (b : Board) (c : Nat) : Decidable (kingAgrees b c) := by
  unfold kingAgrees; infer_instance

instance (b : Board) (c : Nat) : Decidable (ListsAgreeC b c) := by
  unfold ListsAgreeC; infer_instance

instance (b : Board) : Decidable (ListsAgree b) := by
  unfold ListsAgree; infer_instance

instance (b : Board) : Decidable (SquaresWF b) := by
  unfold SquaresWF; infer_instance
/-! ### Geometry of the packed difference tables (kernel-checked) -/

set_option maxRecDepth 1000000 in
/-- Playable squares sit below 128. -/
theorem onBoard_lt : ∀ s < 256, onBoard s = true → s < 128 := by decide

set_option maxRecDepth 1000000 in
/-- The diff table marks `KNIGHT` exactly on knight jumps. -/
theorem G_knight : ∀ k < 128, ∀ s < 128, (onBoard k && onBoard s) = true →
    contains (squareDiffsAt (sqDiff k s)) KNIGHT = decide (knightJumpP k s) := by decide

set_option maxRecDepth 1000000 in
/-- The diff table marks `KING` exactly on king steps. -/
theorem G_king : ∀ k < 128, ∀ s < 128, (onBoard k && onBoard s) = true →
    contains (squareDiffsAt (sqDiff k s)) KING = decide (kingStepP k s) := by decide

set_option maxRecDepth 1000000 in
/-- The diff table marks `BISHOP` exactly on common diagonals. -/
theorem G_bishop : ∀ p < 128, ∀ q < 128, (onBoard p && onBoard q) = true →
    contains (squareDiffsAt (sqDiff q p)) BISHOP = decide (bishopAlignedP p q) := by decide

set_option maxRecDepth 1000000 in
/-- The diff table marks `ROOK` exactly on common files and ranks. -/
theorem G_rook : ∀ p < 128, ∀ q < 128, (onBoard p && onBoard q) = true →
    contains (squareDiffsAt (sqDiff q p)) ROOK = decide (rookAlignedP p q) := by decide

set_option maxRecDepth 1000000 in
/-- The diff table marks `QUEEN` exactly on common lines. -/
theorem G_queen : ∀ p < 128, ∀ q < 128, (onBoard p && onBoard q) = true →
    contains (squareDiffsAt (sqDiff q p)) QUEEN
      = decide (bishopAlignedP p q ∨ rookAlignedP p q) := by decide

set_option maxRecDepth 1000000 in
/-- A capture-direction probe square from `s` holds a pawn attack on `s`. -/
theorem G_pawn_fwd : ∀ c < 2, ∀ s < 128, ∀ d ∈ PAWN_CAPTURE_DIRS.getD c [],
    ((onBoard s && onBoard (sqAdd s d)) = true →
      sqAdd s d < 128 ∧ pawnAttacksP (flipColor c) (sqAdd s d) s) := by decide

set_option maxRecDepth 1000000 in
/-- Every pawn attack on `s` comes from one of the two probe squares. -/
theorem G_pawn_bwd : ∀ c < 2, ∀ s < 128, ∀ p < 128,
    ((onBoard s && onBoard p) = true ∧ pawnAttacksP (flipColor c) p s →
      p = sqAdd s ((PAWN_CAPTURE_DIRS.getD c []).getD 0 0) ∨
      p = sqAdd s ((PAWN_CAPTURE_DIRS.getD c []).getD 1 0)) := by decide

/-- Bit facts about encoded pieces. -/
theorem pieceByteFacts : ∀ c < 2, ∀ col < 2,
    ∀ P ∈ [PAWN, KNIGHT, BISHOP, ROOK, QUEEN, KING],
      isEmptyP (P ||| c) = false ∧ hasColor (P ||| c) col = (c == col) ∧
      (P ||| c) &&& PIECE_MASK = P ∧
      (∀ T ∈ [BISHOP, ROOK, QUEEN], contains (P ||| c) T = (P == T)) := by decide

/-! ## Perft counts of the starting position (kernel-checked depths) -/

set_option maxRecDepth 1000000 in
set_option maxHeartbeats 10000000 in
/-- Perft of the starting position returns 20 and 400 at depths 1 and 2. -/
theorem C1_perft_start_depths_12 :
    perftCount startBoard 1 = some 20 ∧ perftCount startBoard 2 = some 400 :=
  ⟨by decide, by decide⟩

set_option maxRecDepth 1000000 in
set_option maxHeartbeats 2000000 in
/-- At the initial position, every move emitted by `GenerateAllLegalMoves`
is strictly legal: after `MakeLegalMove` the mover's king square is not
attacked by the side then to move. -/
theorem C2_legal_moves_start :
    ((GenerateAllLegalMoves startBoard []).2.all (fun m =>
      match MakeLegalMove (GenerateAllLegalMoves startBoard []).1 m with
      | some b2 => !IsSquareAttacked b2 (b2.kings (flipColor b2.player)) OTB
          (flipColor b2.player)
      | Option.none => false)) = true := by decide
